import Mathlib

/-! # obproxy: list-partition lookup and topology directory

A shallow embedding of `ObPartDescList::get_part` and `ObPartDescList::cast_obj`
(`src/share/part/ob_part_desc_list.cpp`) and of the records of the topology directory
(`src/obproxy/obutils/ob_proxy_json_config_info.h`).

Conventions of the embedding

* return codes are integers, as in the source (`int ret`);
* an array reached through a pointer is a list; reading or writing it outside its bounds
  has no result, so the functions that index return an `Option` and `none`
  stands for an out-of-bounds access;
* the object caster `ObObjCasterV2::to_type` and `ObObj::operator==` are
  declared outside the files of this development; they are parameters of the embedding
  (`to_type`, `obj_eq`); so are `ObProxyReplicaLocation::operator!=`,
  `ObProxyClusterArrayInfo::is_valid` and `ObProxyClusterInfo::get_server_list_hash`;
* a method that changes its object returns the object after the call; where the source
  tests `this != &other` the embedding takes a flag that tells whether the two are the
  same object.
-/

namespace ObProxy

/-! ## Return codes and constants (declared in `lib/ob_errno.h`, `lib/ob_define.h`) -/

/-- Modelled from the spec: the success code `OB_SUCCESS`; its declaration is not part of the
translated sources, the value is the one of the OceanBase error table. -/
def OB_SUCCESS : Int := 0

/-- Modelled from the spec: the `InvalidArgument` error kind, `OB_INVALID_ARGUMENT` in the
source; its declaration is not among the sources at hand. -/
def OB_INVALID_ARGUMENT : Int := -4002

/-- Modelled from the spec: the code `OB_ERR_UNEXPECTED` the source returns for a row without
cells; its declaration is not among the sources at hand. -/
def OB_ERR_UNEXPECTED : Int := -4016

/-- Modelled from the spec: the `TypeMismatch` error kind (`OB_OBJ_TYPE_ERROR` in the OceanBase
error table); the sources at hand never name it. -/
def OB_OBJ_TYPE_ERROR : Int := -4001

/-- Modelled from the spec: a further caster error (`OB_NOT_SUPPORTED` in the OceanBase error
table), used as an example of a cast failure that is not `OB_INVALID_ARGUMENT`. -/
def OB_NOT_SUPPORTED : Int := -4007

/-- Modelled from the spec: `OB_INVALID_INDEX`, the value of `default_part_array_idx_` of a
descriptor without a default partition; its declaration is not among the sources at hand. -/
def OB_INVALID_INDEX : Int := -1

/-! ## Data model -/

/-- A typed literal (`ObObj`): object type, collation and the value payload. -/
structure ObObj where
  type_ : Nat
  cs_type_ : Nat
  v_ : String
deriving DecidableEq, Repr

/-- The call `ObObj::set_collation_type`. -/
def ObObj.set_collation_type (o : ObObj) (cs : Nat) : ObObj :=
  { o with cs_type_ := cs }

/-- A row of literals (`ObNewRow`): the cells, `count_` being their number. -/
structure ObNewRow where
  cells_ : List ObObj
deriving DecidableEq, Repr

/-- The call `ObNewRow::get_count`. -/
def ObNewRow.get_count (r : ObNewRow) : Int := r.cells_.length

/-- The call `ObNewRow::get_cell`: the cell at an index, `none` outside the row. -/
def ObNewRow.get_cell (r : ObNewRow) (idx : Nat) : Option ObObj := r.cells_[idx]?

/-- One partition of a list-partitioned table (`ListPartition`). -/
structure ListPartition where
  part_id_ : Int
  rows_ : List ObNewRow
deriving DecidableEq, Repr

/-- The constructor `ListPartition::ListPartition()`: id 0 and no rows. -/
def ListPartition.new : ListPartition := { part_id_ := 0, rows_ := [] }

/-- The descriptor `ObPartDescList`: `part_array_` is `none` for a null pointer. -/
structure ObPartDescList where
  part_array_ : Option (List ListPartition)
  part_array_size_ : Int
  default_part_array_idx_ : Int
deriving DecidableEq, Repr

/-- The constructor `ObPartDescList::ObPartDescList()`. -/
def ObPartDescList.new : ObPartDescList :=
  { part_array_ := none, part_array_size_ := 0, default_part_array_idx_ := OB_INVALID_INDEX }

/-- A row key (`ObRowkey`): the objects, `obj_cnt_` being their number. -/
structure ObRowkey where
  obj_ptr_ : List ObObj
deriving DecidableEq, Repr

/-- The call `ObRowkey::get_obj_cnt`. -/
def ObRowkey.get_obj_cnt (k : ObRowkey) : Int := k.obj_ptr_.length

/-- The lookup key (`ObNewRange`); `get_part` reads its start key only. -/
structure ObNewRange where
  start_key_ : ObRowkey
deriving DecidableEq, Repr

/-- The caster `ObObjCasterV2::to_type(expect_type, cast_ctx, in_obj, out_obj)`: expected
type, destination collation of the cast context, input object; it gives the return code and
the content of the output object after the call. -/
abbrev Caster := Nat → Nat → ObObj → Int × ObObj

/-- The comparison `ObObj::operator==`. -/
abbrev ObjEq := ObObj → ObObj → Bool

/-! ## `ObPartDescList::cast_obj` -/

/-- The function `cast_obj(src_obj, target_obj, allocator)`: sets the collation of the source
to the one of the target, then casts the source in place to the type of the target. The
result is the return code and the source object after the call. -/
def cast_obj (to_type : Caster) (src_obj target_obj : ObObj) : Int × ObObj :=
  let src1 := src_obj.set_collation_type target_obj.cs_type_
  to_type target_obj.type_ target_obj.cs_type_ src1

/-! ## `ObPartDescList::get_part` -/

/-- The local state of the scan of `get_part`: `ret`, `found` and the output array. -/
structure ScanState where
  ret : Int
  found : Bool
  part_ids : List Int
deriving DecidableEq, Repr

/-- The call `ObIArray::push_back` on the output array (no allocation failure). -/
def push_back (a : List Int) (x : Int) : Int × List Int := (OB_SUCCESS, a ++ [x])

/-- The inner loop of `get_part` (over the rows of one partition, source lines 80-90). The
loop stops as soon as `ret` is not `OB_SUCCESS` or `found` is set. -/
def scan_rows (obj_eq : ObjEq) (src_obj : ObObj) (part_id : Int) :
    List ObNewRow → ScanState → ScanState
  | [], s => s
  | row :: rest, s =>
    if s.ret = OB_SUCCESS ∧ s.found = false then
      match row.cells_ with
      | [] => scan_rows obj_eq src_obj part_id rest { s with ret := OB_ERR_UNEXPECTED }
      | cell :: _ =>
        if obj_eq src_obj cell = true then
          let r := push_back s.part_ids part_id
          scan_rows obj_eq src_obj part_id rest { ret := r.1, found := true, part_ids := r.2 }
        else scan_rows obj_eq src_obj part_id rest s
    else s

/-- The outer loop of `get_part` (source lines 76-91): `n` iterations are left, `i` is the
loop index. The default partition is skipped; `none` is an access outside `part_array_`. -/
def scan_parts (obj_eq : ObjEq) (src_obj : ObObj) (arr : List ListPartition)
    (default_idx : Int) : Nat → Nat → ScanState → Option ScanState
  | 0, _, s => some s
  | n + 1, i, s =>
    if s.ret = OB_SUCCESS ∧ s.found = false then
      if (i : Int) = default_idx then scan_parts obj_eq src_obj arr default_idx n (i + 1) s
      else
        match arr[i]? with
        | none => none
        | some p =>
          scan_parts obj_eq src_obj arr default_idx n (i + 1)
            (scan_rows obj_eq src_obj p.part_id_ p.rows_ s)
    else some s

/-- The element `part_array_[i]` for a signed index. -/
def part_at (arr : List ListPartition) (i : Int) : Option ListPartition :=
  if 0 ≤ i then arr[i.toNat]? else none

/-- The cast target of `get_part` (source line 71): `part_array_[0].rows_[0].get_cell(0)`. -/
def target_cell (arr : List ListPartition) : Option ObObj :=
  match arr[0]? with
  | none => none
  | some p =>
    match p.rows_[0]? with
    | none => none
    | some row => row.get_cell 0

/-- What a call of `get_part` leaves behind: the return code, the output array, the
descriptor and the range (whose start key is cast in place). -/
structure GetPartOut where
  ret : Int
  part_ids : List Int
  self : ObPartDescList
  range : ObNewRange
deriving DecidableEq, Repr

/-- The function `ObPartDescList::get_part(range, allocator, part_ids)`. The last argument
is the content of `part_ids` before the call. The result is `none` when the call reads an
array outside its bounds. -/
def get_part (to_type : Caster) (obj_eq : ObjEq) (d : ObPartDescList) (range : ObNewRange)
    (_part_ids : List Int) : Option GetPartOut :=
  let part_ids : List Int := []
  match d.part_array_ with
  | none => some { ret := OB_INVALID_ARGUMENT, part_ids := part_ids, self := d, range := range }
  | some arr =>
    if d.part_array_size_ ≤ 0 then
      some { ret := OB_INVALID_ARGUMENT, part_ids := part_ids, self := d, range := range }
    else if range.start_key_.get_obj_cnt ≠ 1 then
      some { ret := OB_INVALID_ARGUMENT, part_ids := part_ids, self := d, range := range }
    else
      match range.start_key_.obj_ptr_[0]?, target_cell arr with
      | none, _ => none
      | some _, none => none
      | some src_obj0, some target_obj =>
        let c := cast_obj to_type src_obj0 target_obj
        let src_obj := c.2
        let range1 : ObNewRange :=
          { start_key_ := { obj_ptr_ := range.start_key_.obj_ptr_.set 0 src_obj } }
        if c.1 ≠ OB_SUCCESS then
          some { ret := c.1, part_ids := part_ids, self := d, range := range1 }
        else
          match scan_parts obj_eq src_obj arr d.default_part_array_idx_
              d.part_array_size_.toNat 0 { ret := OB_SUCCESS, found := false, part_ids := part_ids } with
          | none => none
          | some s =>
            if s.found = false ∧ OB_INVALID_INDEX ≠ d.default_part_array_idx_ then
              match part_at arr d.default_part_array_idx_ with
              | none => none
              | some p =>
                let r := push_back s.part_ids p.part_id_
                some { ret := r.1, part_ids := r.2, self := d, range := range1 }
            else
              some { ret := s.ret, part_ids := s.part_ids, self := d, range := range1 }

/-! ## Concrete data used by the examples -/

/-- A caster that retags the object with the expected type and collation and succeeds. -/
def retag_caster : Caster := fun ty cs o => (OB_SUCCESS, { o with type_ := ty, cs_type_ := cs })

/-- A caster that rejects every cast as unsupported. -/
def unsupported_caster : Caster := fun _ _ o => (OB_NOT_SUPPORTED, o)

/-- Structural equality of literals. -/
def struct_eq : ObjEq := fun a b => decide (a = b)

/-- A varchar literal (type 22, collation 45). -/
def lit (s : String) : ObObj := { type_ := 22, cs_type_ := 45, v_ := s }

/-- A partition whose rows hold one literal each. -/
def mk_part (id : Int) (vals : List String) : ListPartition :=
  { part_id_ := id, rows_ := vals.map (fun s => { cells_ := [lit s] }) }

/-- A single-column lookup key. -/
def key1 (o : ObObj) : ObNewRange := { start_key_ := { obj_ptr_ := [o] } }

/-- The descriptor of the specification example: P1 holds A, P2 holds B, P3 is the default. -/
def desc_abc : ObPartDescList :=
  { part_array_ := some [mk_part 1 ["A"], mk_part 2 ["B"], mk_part 3 ["DEFAULT"]],
    part_array_size_ := 3, default_part_array_idx_ := 2 }

/-- A descriptor in which the key C occurs in P2, again in the later partition P3 and in the
default partition P4. -/
def desc_dup : ObPartDescList :=
  { part_array_ := some [mk_part 1 ["A"], mk_part 2 ["B", "C"], mk_part 3 ["C"],
      mk_part 4 ["C"]],
    part_array_size_ := 4, default_part_array_idx_ := 3 }

/-- A literal of another type and collation (type 5, collation 63). -/
def lit5 (s : String) : ObObj := { type_ := 5, cs_type_ := 63, v_ := s }

/-- A descriptor whose partition at index 0 is the default partition (id 9, one literal of
type 5) and whose first non-default partition P1 holds the varchar A. -/
def desc_default_first : ObPartDescList :=
  { part_array_ := some [{ part_id_ := 9, rows_ := [{ cells_ := [lit5 "MAX"] }] },
      mk_part 1 ["A"]],
    part_array_size_ := 2, default_part_array_idx_ := 0 }

/-- A descriptor of one partition as its constructor leaves it: no rows. -/
def desc_no_rows : ObPartDescList :=
  { part_array_ := some [ListPartition.new], part_array_size_ := 1,
    default_part_array_idx_ := OB_INVALID_INDEX }

/-- A descriptor of one partition whose first row has no cells. -/
def desc_no_cells : ObPartDescList :=
  { part_array_ := some [{ part_id_ := 1, rows_ := [{ cells_ := [] }] }],
    part_array_size_ := 1, default_part_array_idx_ := OB_INVALID_INDEX }

/-! ## The cast target in the words of the specification -/

/-- The first partition whose index is not the default index, scanning from index `i`. -/
def first_non_default (default_idx : Int) : Nat → List ListPartition → Option ListPartition
  | _, [] => none
  | i, p :: rest =>
    if (i : Int) = default_idx then first_non_default default_idx (i + 1) rest else some p

/-- The cast target as the specification words it: the first cell of the first row of the
first non-default partition. -/
def spec_target_cell (arr : List ListPartition) (default_idx : Int) : Option ObObj :=
  match first_non_default default_idx 0 arr with
  | none => none
  | some p =>
    match p.rows_[0]? with
    | none => none
    | some row => row.get_cell 0

/-! ## Predicates used in the statements -/

/-- The invariant of the scan: nothing is stored before a match, at most one id is stored,
and a stored id is the id of a partition of the array. -/
def scan_inv (arr : List ListPartition) (s : ScanState) : Prop :=
  (s.found = false → s.part_ids = []) ∧ s.part_ids.length ≤ 1
    ∧ ∀ id ∈ s.part_ids, ∃ p ∈ arr, p.part_id_ = id

/-! ## Topology directory: strings (`ob_proxy_json_config_info.h`) -/

/-- Modelled from the spec: `common::ObString` (declared in `lib/string/ob_string.h`, not
among the sources at hand): a string seen through a pointer and a length, here the
characters it views. -/
structure ObString where
  ptr_ : List Char
deriving DecidableEq, Repr

/-- The call `ObString::length`. -/
def ObString.length (s : ObString) : Nat := s.ptr_.length

/-- The call `ObString::empty`. -/
def ObString.empty (s : ObString) : Bool := s.ptr_.isEmpty

/-- The comparison `ObString::operator==`: equal contents. -/
def ObString.eq (a b : ObString) : Bool := decide (a.ptr_ = b.ptr_)

/-- The string left by `ObString::reset`. -/
def ObString.reset : ObString := { ptr_ := [] }

/-- The constant `OB_PROXY_MAX_CONFIG_STRING_LENGTH` of `ObProxyBaseInfo`. -/
def OB_PROXY_MAX_CONFIG_STRING_LENGTH : Nat := 512

/-- The call `MEMSET(buf, c, n)`; `none` when it writes outside the buffer. -/
def memset (buf : List Char) (c : Char) (n : Nat) : Option (List Char) :=
  if n ≤ buf.length then some (List.replicate n c ++ buf.drop n) else none

/-- The call `MEMCPY(dst, src, n)`; `none` when it reads or writes outside a buffer. -/
def memcpy (dst src : List Char) (n : Nat) : Option (List Char) :=
  if n ≤ dst.length ∧ n ≤ src.length then some (src.take n ++ dst.drop n) else none

/-- The store `buf[i] = c`; `none` when the index is outside the buffer. -/
def buf_store (buf : List Char) (i : Nat) (c : Char) : Option (List Char) :=
  if i < buf.length then some (buf.set i c) else none

/-- The class `ObProxyConfigString`: the string `config_string_`, the limit `size_limit_`
and the buffer `config_string_str_` of `OB_PROXY_MAX_CONFIG_STRING_LENGTH` characters. -/
structure ObProxyConfigString where
  config_string_ : ObString
  size_limit_ : Int
  config_string_str_ : List Char
deriving DecidableEq, Repr

/-- The call `ObProxyConfigString::reset`. -/
def ObProxyConfigString.reset (s : ObProxyConfigString) : ObProxyConfigString :=
  { s with config_string_ := ObString.reset }

/-- The call `ObProxyConfigString::empty`. -/
def ObProxyConfigString.empty (s : ObProxyConfigString) : Bool := s.config_string_.empty

/-- The call `ObProxyConfigString::is_valid`. -/
def ObProxyConfigString.is_valid (s : ObProxyConfigString) : Bool := !s.config_string_.empty

/-- The call `ObProxyConfigString::set_value(const ObString &)` (source lines 81-92); `none`
when a write falls outside `config_string_str_`. -/
def ObProxyConfigString.set_value (s : ObProxyConfigString) (value : ObString) :
    Option ObProxyConfigString :=
  if value.empty = true then
    match memset s.config_string_str_ (Char.ofNat 0) OB_PROXY_MAX_CONFIG_STRING_LENGTH with
    | none => none
    | some b => some { s with config_string_str_ := b, config_string_ := ObString.reset }
  else
    let copy_len := min value.length (OB_PROXY_MAX_CONFIG_STRING_LENGTH - 1)
    match memcpy s.config_string_str_ value.ptr_ copy_len with
    | none => none
    | some b1 =>
      match buf_store b1 value.length (Char.ofNat 0) with
      | none => none
      | some b2 =>
        some { s with config_string_str_ := b2, config_string_ := { ptr_ := b2.take copy_len } }

/-- The call `ObProxyConfigString::assign` (source lines 106-113); `same_object` tells
whether `this == &other`. The result is the return code and the object after the call. -/
def ObProxyConfigString.assign (s other : ObProxyConfigString) (same_object : Bool) :
    Option (Int × ObProxyConfigString) :=
  if same_object = false then
    match s.set_value other.config_string_ with
    | none => none
    | some s1 => some (OB_SUCCESS, s1)
  else some (OB_SUCCESS, s)

/-- The comparison `ObProxyConfigString::operator==`. -/
def ObProxyConfigString.eq (a b : ObProxyConfigString) : Bool :=
  a.config_string_.eq b.config_string_

/-- The class `ObProxyConfigUrl`: the string `url_` (the pointer `url_str_` to its storage
is not modelled). -/
structure ObProxyConfigUrl where
  url_ : ObString
deriving DecidableEq, Repr

/-- The call `ObProxyConfigUrl::is_valid`. -/
def ObProxyConfigUrl.is_valid (u : ObProxyConfigUrl) : Bool := !u.url_.empty

/-- The comparison `ObProxyConfigUrl::operator==`. -/
def ObProxyConfigUrl.eq (a b : ObProxyConfigUrl) : Bool := a.url_.eq b.url_

/-- The class `ObProxyNameString`: the string `name_string_`, the limit and the buffer. -/
structure ObProxyNameString where
  name_string_ : ObString
  size_limit_ : Int
  name_string_str_ : List Char
deriving DecidableEq, Repr

/-- The comparison `ObProxyNameString::operator==`. -/
def ObProxyNameString.eq (a b : ObProxyNameString) : Bool := a.name_string_.eq b.name_string_

/-! ## Topology directory: records -/

/-- The enumeration `ObClusterRole`. -/
inductive ObClusterRole where
  | INVALID_CLUSTER_ROLE
  | PRIMARY
  | STANDBY
deriving DecidableEq, Repr

/-- The class `ObProxyIDCInfo`. -/
structure ObProxyIDCInfo where
  idc_hash_ : Nat
  idc_name_ : ObProxyNameString
  region_name_ : ObProxyNameString
deriving DecidableEq, Repr

/-- The comparison `ObProxyIDCInfo::operator==` (source lines 288-291). -/
def ObProxyIDCInfo.eq (a b : ObProxyIDCInfo) : Bool :=
  a.idc_name_.eq b.idc_name_ && a.region_name_.eq b.region_name_

/-- Modelled from the spec: `proxy::ObProxyReplicaLocation` (declared in
`proxy/route/ob_table_entry.h`, not among the sources at hand), the replica location of the
data model: ip, sql port, role and replica type. -/
structure ObProxyReplicaLocation where
  ip_ : Nat
  sql_port_ : Nat
  role_ : Nat
  replica_type_ : Nat
deriving DecidableEq, Repr

/-- The comparison `ObProxyReplicaLocation::operator!=`, declared outside the sources at
hand and a parameter of the embedding. -/
abbrev LocNe := ObProxyReplicaLocation → ObProxyReplicaLocation → Bool

/-- The list type `LocationList`. -/
abbrev LocationList := List ObProxyReplicaLocation

/-- The list type `ObProxyIDCList`. -/
abbrev ObProxyIDCList := List ObProxyIDCInfo

/-- The class `ObProxySubClusterInfo`. -/
structure ObProxySubClusterInfo where
  is_used_ : Bool
  role_ : ObClusterRole
  cluster_id_ : Int
  rs_list_hash_ : Nat
  create_failure_count_ : Int
  web_rs_list_ : LocationList
  idc_list_ : ObProxyIDCList
deriving DecidableEq, Repr

/-- The loop of `is_web_rs_list_changed` (source lines 325-329) over two lists of the same
count, position by position; it stops as soon as `bret` is set. -/
def web_rs_list_loop (loc_ne : LocNe) : LocationList → LocationList → Bool → Bool
  | a :: l, b :: o, bret =>
    if bret = false then web_rs_list_loop loc_ne l o (if loc_ne a b = true then true else bret)
    else bret
  | _, _, bret => bret

/-- The call `ObProxySubClusterInfo::is_web_rs_list_changed` (source lines 319-332). -/
def ObProxySubClusterInfo.is_web_rs_list_changed (loc_ne : LocNe) (s : ObProxySubClusterInfo)
    (other : LocationList) : Bool :=
  if s.web_rs_list_.length ≠ other.length then true
  else web_rs_list_loop loc_ne s.web_rs_list_ other false

/-- The loop of `is_idc_list_changed` (source lines 349-353) over two lists of the same
count, position by position; it stops as soon as `bret` is set. -/
def idc_list_loop : ObProxyIDCList → ObProxyIDCList → Bool → Bool
  | a :: l, b :: o, bret =>
    if bret = false then idc_list_loop l o (if a.idc_hash_ ≠ b.idc_hash_ then true else bret)
    else bret
  | _, _, bret => bret

/-- The call `ObProxySubClusterInfo::is_idc_list_changed` (source lines 343-356). -/
def ObProxySubClusterInfo.is_idc_list_changed (s : ObProxySubClusterInfo)
    (other : ObProxyIDCList) : Bool :=
  if s.idc_list_.length ≠ other.length then true
  else idc_list_loop s.idc_list_ other false

/-- The constant `ObProxyClusterInfo::RESET_RS_LIST_FAILURE_COUNT`. -/
def RESET_RS_LIST_FAILURE_COUNT : Int := 3

/-- The class `ObProxyClusterInfo`; the hash map `sub_ci_map_` is the list of its
sub-cluster records. -/
structure ObProxyClusterInfo where
  rs_url_ : ObProxyConfigUrl
  cluster_name_ : ObProxyConfigString
  master_cluster_id_ : Int
  sub_ci_map_ : List ObProxySubClusterInfo
deriving DecidableEq, Repr

/-- The call `ObProxyClusterInfo::is_valid`. -/
def ObProxyClusterInfo.is_valid (c : ObProxyClusterInfo) : Bool := c.cluster_name_.is_valid

/-- The call `ObProxyClusterInfo::assign` (source lines 399-410); `same_object` tells whether
`this == &other`. The result is the return code and the object after the call. -/
def ObProxyClusterInfo.assign (c other : ObProxyClusterInfo) (same_object : Bool) :
    Option (Int × ObProxyClusterInfo) :=
  if same_object = false then
    match c.cluster_name_.assign other.cluster_name_ false with
    | none => none
    | some (ret, name) =>
      let c1 := { c with cluster_name_ := name }
      if ret ≠ OB_SUCCESS then some (ret, c1)
      else some (ret, { c1 with master_cluster_id_ := other.master_cluster_id_ })
  else some (OB_SUCCESS, c)

/-- The comparison `ObProxyClusterInfo::operator==` (source lines 414-420). -/
def ObProxyClusterInfo.eq (a b : ObProxyClusterInfo) : Bool :=
  a.cluster_name_.eq b.cluster_name_ && a.rs_url_.eq b.rs_url_

/-- The comparison `ObProxyClusterInfo::operator!=`. -/
def ObProxyClusterInfo.ne (a b : ObProxyClusterInfo) : Bool := !(a.eq b)

/-- The class `ObProxyMetaTableInfo`. -/
structure ObProxyMetaTableInfo where
  db_ : ObProxyConfigString
  username_ : ObProxyConfigString
  password_ : ObProxyConfigString
  real_cluster_name_ : ObProxyConfigString
  cluster_info_ : ObProxyClusterInfo
deriving DecidableEq, Repr

/-- The call `ObProxyMetaTableInfo::is_valid` (source lines 474-477). -/
def ObProxyMetaTableInfo.is_valid (m : ObProxyMetaTableInfo) : Bool :=
  m.db_.is_valid && m.username_.is_valid && m.password_.is_valid && m.cluster_info_.is_valid

/-- The comparison `ObProxyMetaTableInfo::operator==` (source lines 498-508). -/
def ObProxyMetaTableInfo.eq (a b : ObProxyMetaTableInfo) : Bool :=
  a.db_.eq b.db_
    && a.username_.eq b.username_
    && a.password_.eq b.password_
    && ((a.real_cluster_name_.empty || b.real_cluster_name_.empty)
        || a.real_cluster_name_.eq b.real_cluster_name_)
    && a.cluster_info_.eq b.cluster_info_

/-- The comparison `ObProxyMetaTableInfo::operator!=`. -/
def ObProxyMetaTableInfo.ne (a b : ObProxyMetaTableInfo) : Bool := !(a.eq b)

/-- The class `ObProxyClusterArrayInfo`; the hash map `ci_map_` is the list of its cluster
records. -/
structure ObProxyClusterArrayInfo where
  default_cluster_name_ : ObString
  ci_map_ : List ObProxyClusterInfo
deriving DecidableEq, Repr

/-- The call `ObProxyClusterArrayInfo::is_valid`, declared in the header and defined outside
the sources at hand: a parameter of the embedding. -/
abbrev ClusterArrayValid := ObProxyClusterArrayInfo → Bool

/-- The class `ObProxyDataInfo`. -/
structure ObProxyDataInfo where
  version_ : ObProxyConfigString
  bin_url_ : ObProxyConfigUrl
  meta_table_info_ : ObProxyMetaTableInfo
  cluster_array_ : ObProxyClusterArrayInfo
  root_service_url_template_ : ObProxyConfigString
  root_service_url_template_v2_ : ObProxyConfigString
deriving DecidableEq, Repr

/-- The call `ObProxyDataInfo::is_valid` (source line 605). -/
def ObProxyDataInfo.is_valid (ca_valid : ClusterArrayValid) (d : ObProxyDataInfo) : Bool :=
  d.version_.is_valid && d.bin_url_.is_valid && d.meta_table_info_.is_valid
    && ca_valid d.cluster_array_

/-- The structure `ObProxyLoginInfo`. -/
structure ObProxyLoginInfo where
  db_ : ObProxyConfigString
  username_ : ObProxyConfigString
  password_ : ObProxyConfigString
deriving DecidableEq, Repr

/-- The call `ObProxyLoginInfo::is_valid`. -/
def ObProxyLoginInfo.is_valid (i : ObProxyLoginInfo) : Bool :=
  i.db_.is_valid && i.username_.is_valid && i.password_.is_valid

/-- The class `ObProxyJsonConfigInfo`: the modification time and the data (the allocator is
not modelled). -/
structure ObProxyJsonConfigInfo where
  gmt_modified_ : Int
  data_info_ : ObProxyDataInfo
deriving DecidableEq, Repr

/-- The call `ObProxyJsonConfigInfo::is_valid` (source line 679). -/
def ObProxyJsonConfigInfo.is_valid (ca_valid : ClusterArrayValid)
    (c : ObProxyJsonConfigInfo) : Bool :=
  c.data_info_.is_valid ca_valid

/-- The call `ObProxyJsonConfigInfo::get_meta_table_login_info` (source lines 709-720). The
output object is never the stored one, so the three assignments are between distinct
objects. The result is the return code and `info` after the call; `none` when a write falls
outside a buffer. -/
def ObProxyJsonConfigInfo.get_meta_table_login_info (c : ObProxyJsonConfigInfo)
    (info : ObProxyLoginInfo) : Option (Int × ObProxyLoginInfo) :=
  match info.username_.assign c.data_info_.meta_table_info_.username_ false with
  | none => none
  | some (ret1, u) =>
    let info1 := { info with username_ := u }
    if ret1 ≠ OB_SUCCESS then some (ret1, info1)
    else
      match info1.password_.assign c.data_info_.meta_table_info_.password_ false with
      | none => none
      | some (ret2, p) =>
        let info2 := { info1 with password_ := p }
        if ret2 ≠ OB_SUCCESS then some (ret2, info2)
        else
          match info2.db_.assign c.data_info_.meta_table_info_.db_ false with
          | none => none
          | some (ret3, d) => some (ret3, { info2 with db_ := d })

/-! ## Topology directory: the update of the replica list -/

/-- The function `ObProxyClusterInfo::get_server_list_hash`, declared in the header and
defined outside the sources at hand: a parameter of the embedding. -/
abbrev ServerListHash := LocationList → Nat

/-- Modelled from the spec: `ObProxySubClusterInfo::update_rslist(rs_list, hash)`, declared
at source line 357 with its body outside the sources at hand. In the words of the
specification: the effective hash is the external hash if provided (not 0), else the hash of
the new list; if it equals the current hash the call is a no-op; otherwise a non-empty list
replaces the list and the hash and resets the failure count to 0; an empty list is counted
as one more failure, and it replaces the list only when the failure count then exceeds
`RESET_RS_LIST_FAILURE_COUNT`, otherwise the stale list is retained. Counting the empty
list at hand before the test is the reading under which the rule and the example of the
specification (three empty lists keep the list, the fourth clears it) agree. -/
def ObProxySubClusterInfo.update_rslist (hash_fn : ServerListHash)
    (s : ObProxySubClusterInfo) (rs_list : LocationList) (hash : Nat) :
    Int × ObProxySubClusterInfo :=
  let effective_hash := if hash ≠ 0 then hash else hash_fn rs_list
  if effective_hash = s.rs_list_hash_ then (OB_SUCCESS, s)
  else if rs_list ≠ [] then
    (OB_SUCCESS, { s with web_rs_list_ := rs_list, rs_list_hash_ := effective_hash,
                          create_failure_count_ := 0 })
  else
    let failure_count := s.create_failure_count_ + 1
    if failure_count > RESET_RS_LIST_FAILURE_COUNT then
      (OB_SUCCESS, { s with web_rs_list_ := rs_list, rs_list_hash_ := effective_hash,
                            create_failure_count_ := failure_count })
    else
      (OB_SUCCESS, { s with create_failure_count_ := failure_count })

/-- The sub-cluster record after `n` successive calls of `update_rslist` with an empty list
and no external hash. -/
def apply_empty (hash_fn : ServerListHash) : Nat → ObProxySubClusterInfo →
    ObProxySubClusterInfo
  | 0, s => s
  | n + 1, s => apply_empty hash_fn n (s.update_rslist hash_fn [] 0).2

/-! ## Concrete data used by the examples of the topology directory -/

/-- The string of a literal. -/
def ob_str (s : String) : ObString := { ptr_ := s.toList }

/-- A buffer of `OB_PROXY_MAX_CONFIG_STRING_LENGTH` characters that starts with the given
characters and is filled with NUL. -/
def buf_of (cs : List Char) : List Char :=
  cs ++ List.replicate (OB_PROXY_MAX_CONFIG_STRING_LENGTH - cs.length) (Char.ofNat 0)

/-- A config string that holds a literal in its own buffer. -/
def cfg_str (s : String) : ObProxyConfigString :=
  { config_string_ := ob_str s, size_limit_ := 0, config_string_str_ := buf_of s.toList }

/-- A config url that holds a literal. -/
def cfg_url (s : String) : ObProxyConfigUrl := { url_ := ob_str s }

/-- The replica location A. -/
def loc_a : ObProxyReplicaLocation := { ip_ := 1, sql_port_ := 2881, role_ := 1, replica_type_ := 0 }

/-- The replica location B. -/
def loc_b : ObProxyReplicaLocation := { ip_ := 2, sql_port_ := 2881, role_ := 2, replica_type_ := 0 }

/-- Structural inequality of replica locations. -/
def struct_ne : LocNe := fun a b => decide (a ≠ b)

/-- A hash of a replica list that tells the empty list from the others. -/
def sum_hash : ServerListHash := fun l => (l.map (fun r => r.ip_ + 1)).sum

/-- A sub-cluster record with replica list A, B, its hash under `sum_hash` and failure
count 0. -/
def sub_ab : ObProxySubClusterInfo :=
  { is_used_ := false, role_ := ObClusterRole.PRIMARY, cluster_id_ := 1, rs_list_hash_ := 5,
    create_failure_count_ := 0, web_rs_list_ := [loc_a, loc_b], idc_list_ := [] }

/-- A name string that holds a literal. -/
def name_str (s : String) : ObProxyNameString :=
  { name_string_ := ob_str s, size_limit_ := 128, name_string_str_ := s.toList }

/-- An IDC record. -/
def idc (h : Nat) (name region : String) : ObProxyIDCInfo :=
  { idc_hash_ := h, idc_name_ := name_str name, region_name_ := name_str region }

/-- A cluster record. -/
def cluster (name url : String) (master : Int) (subs : List ObProxySubClusterInfo) :
    ObProxyClusterInfo :=
  { rs_url_ := cfg_url url, cluster_name_ := cfg_str name, master_cluster_id_ := master,
    sub_ci_map_ := subs }

/-- A meta-table record. -/
def meta_table (db user pass real : String) (ci : ObProxyClusterInfo) : ObProxyMetaTableInfo :=
  { db_ := cfg_str db, username_ := cfg_str user, password_ := cfg_str pass,
    real_cluster_name_ := cfg_str real, cluster_info_ := ci }

/-- A directory with the given version, bin url and meta-table record and no cluster. -/
def directory (version bin_url : String) (m : ObProxyMetaTableInfo) : ObProxyJsonConfigInfo :=
  { gmt_modified_ := 0,
    data_info_ :=
      { version_ := cfg_str version, bin_url_ := cfg_url bin_url, meta_table_info_ := m,
        cluster_array_ := { default_cluster_name_ := ob_str "", ci_map_ := [] },
        root_service_url_template_ := cfg_str "", root_service_url_template_v2_ := cfg_str "" } }

/-- A login record with stale content. -/
def stale_login : ObProxyLoginInfo :=
  { db_ := cfg_str "old_db", username_ := cfg_str "old_user", password_ := cfg_str "old_pw" }

/-- A descriptor whose non-default partition P1 holds the row A and then a row without
cells, and whose partition P2 (index 1) is the default partition. -/
def desc_zero_cell_default : ObPartDescList :=
  { part_array_ := some [{ part_id_ := 1, rows_ := [{ cells_ := [lit "A"] }, { cells_ := [] }] },
      mk_part 2 ["DEFAULT"]],
    part_array_size_ := 2, default_part_array_idx_ := 1 }

/-- The same partition P1 without a default partition. -/
def desc_zero_cell : ObPartDescList :=
  { part_array_ := some [{ part_id_ := 1, rows_ := [{ cells_ := [lit "A"] }, { cells_ := [] }] }],
    part_array_size_ := 1, default_part_array_idx_ := OB_INVALID_INDEX }

/-! ## Topology directory: further operations on strings and records -/

/-- The call `ObProxyConfigString::buffer_size`. -/
def ObProxyConfigString.buffer_size : Nat := OB_PROXY_MAX_CONFIG_STRING_LENGTH - 1

/-- The indices of `config_string_str_` that `set_value(const ObString &)` writes, in the
order of the source (lines 83-90): the `MEMSET` of the whole buffer for an empty value;
otherwise the `copy_len` indices of the `MEMCPY`, then the index `value.length()` of the
terminating NUL. -/
def ObProxyConfigString.set_value_writes (value : ObString) : List Nat :=
  if value.empty = true then List.range OB_PROXY_MAX_CONFIG_STRING_LENGTH
  else
    List.range (min value.length (OB_PROXY_MAX_CONFIG_STRING_LENGTH - 1)) ++ [value.length]

/-- The call `ObProxyConfigString::set_value(const int64_t len, const char *value)` (source
lines 94-102); the pointer is `none` when it is null, else the characters it points to;
`none` as result when the call reads or writes outside a buffer. -/
def ObProxyConfigString.set_value_len (s : ObProxyConfigString) (len : Int)
    (value : Option (List Char)) : Option ObProxyConfigString :=
  let copy_len : Int := min len ((OB_PROXY_MAX_CONFIG_STRING_LENGTH : Int) - 1)
  match value with
  | none => some s
  | some v =>
    if copy_len > 0 then
      match memcpy s.config_string_str_ v copy_len.toNat with
      | none => none
      | some b1 =>
        match buf_store b1 copy_len.toNat (Char.ofNat 0) with
        | none => none
        | some b2 =>
          some { s with config_string_str_ := b2,
                        config_string_ := { ptr_ := b2.take copy_len.toNat } }
    else some s

/-- The call `ObProxyMetaTableInfo::assign` (source lines 479-496); `same_object` tells
whether `this == &other`. The result is the return code and the object after the call. -/
def ObProxyMetaTableInfo.assign (t other : ObProxyMetaTableInfo) (same_object : Bool) :
    Option (Int × ObProxyMetaTableInfo) :=
  if same_object = false then
    match t.db_.assign other.db_ false with
    | none => none
    | some (ret1, db) =>
      let t1 := { t with db_ := db }
      if ret1 ≠ OB_SUCCESS then some (ret1, t1)
      else
        match t1.username_.assign other.username_ false with
        | none => none
        | some (ret2, user) =>
          let t2 := { t1 with username_ := user }
          if ret2 ≠ OB_SUCCESS then some (ret2, t2)
          else
            match t2.password_.assign other.password_ false with
            | none => none
            | some (ret3, pw) =>
              let t3 := { t2 with password_ := pw }
              if ret3 ≠ OB_SUCCESS then some (ret3, t3)
              else
                match t3.real_cluster_name_.assign other.real_cluster_name_ false with
                | none => none
                | some (ret4, real) =>
                  let t4 := { t3 with real_cluster_name_ := real }
                  if ret4 ≠ OB_SUCCESS then some (ret4, t4)
                  else
                    match t4.cluster_info_.assign other.cluster_info_ false with
                    | none => none
                    | some (ret5, ci) => some (ret5, { t4 with cluster_info_ := ci })
  else some (OB_SUCCESS, t)

/-- The call `ObProxyJsonConfigInfo::is_meta_db_changed` (source lines 681-685). -/
def ObProxyJsonConfigInfo.is_meta_db_changed (a other : ObProxyJsonConfigInfo) : Bool :=
  a.data_info_.meta_table_info_.is_valid
    && a.data_info_.meta_table_info_.ne other.data_info_.meta_table_info_

/-- A value of 512 characters. -/
def value_512 : ObString := { ptr_ := List.replicate 512 (Char.ofNat 120) }

/-- A value of 600 characters. -/
def value_600 : ObString := { ptr_ := List.replicate 600 (Char.ofNat 120) }

/-! ## `get_part` with a key that may be a cell of the descriptor -/

theorem scan_rows_stuck (obj_eq : ObjEq) (src : ObObj) (pid : Int) (rows : List ObNewRow)
    (s : ScanState) (h : ¬ (s.ret = OB_SUCCESS ∧ s.found = false)) :
    scan_rows obj_eq src pid rows s = s := by
  cases rows with
  | nil => rfl
  | cons row rest => rw [scan_rows, if_neg h]

theorem scan_parts_stuck (obj_eq : ObjEq) (src : ObObj) (arr : List ListPartition) (di : Int)
    (n i : Nat) (s : ScanState) (h : ¬ (s.ret = OB_SUCCESS ∧ s.found = false)) :
    scan_parts obj_eq src arr di n i s = some s := by
  cases n with
  | zero => rfl
  | succ n => rw [scan_parts, if_neg h]

/-- The shape of every result of `get_part`: the descriptor is handed back as it was, and
the output array is empty, or what the scan left, or what the scan left followed by the id
of the partition at the default index when the scan found nothing. -/
theorem get_part_some_cases (to_type : Caster) (obj_eq : ObjEq) (d : ObPartDescList)
    (range : ObNewRange) (ids0 : List Int) (out : GetPartOut)
    (h : get_part to_type obj_eq d range ids0 = some out) :
    out.self = d ∧ (out.part_ids = [] ∨
      ∃ (arr : List ListPartition) (src : ObObj) (s : ScanState),
        d.part_array_ = some arr
        ∧ scan_parts obj_eq src arr d.default_part_array_idx_ d.part_array_size_.toNat 0
            { ret := OB_SUCCESS, found := false, part_ids := [] } = some s
        ∧ (out.part_ids = s.part_ids
            ∨ (s.found = false ∧ ∃ p, part_at arr d.default_part_array_idx_ = some p
                ∧ out.part_ids = s.part_ids ++ [p.part_id_]))) := by
  unfold get_part at h
  split at h
  · cases h; exact ⟨rfl, Or.inl rfl⟩
  · rename_i arr harr
    split at h
    · cases h; exact ⟨rfl, Or.inl rfl⟩
    · split at h
      · cases h; exact ⟨rfl, Or.inl rfl⟩
      · split at h
        · cases h
        · cases h
        · rename_i src0 target hsrc htarget
          simp only at h
          split at h
          · cases h; exact ⟨rfl, Or.inl rfl⟩
          · split at h
            · cases h
            · rename_i st hst
              split at h
              · rename_i hcond
                split at h
                · cases h
                · rename_i pd hpd
                  cases h
                  exact ⟨rfl, Or.inr ⟨arr, _, st, harr, hst, Or.inr ⟨hcond.1, pd, hpd, rfl⟩⟩⟩
              · cases h
                exact ⟨rfl, Or.inr ⟨arr, _, st, harr, hst, Or.inl rfl⟩⟩

theorem scan_rows_inv (obj_eq : ObjEq) (src : ObObj) (arr : List ListPartition)
    (p : ListPartition) (hp : p ∈ arr) :
    ∀ (rows : List ObNewRow) (s : ScanState), scan_inv arr s →
      scan_inv arr (scan_rows obj_eq src p.part_id_ rows s) := by
  intro rows
  induction rows with
  | nil => intro s hs; exact hs
  | cons row rest ih =>
    intro s hs
    by_cases hc : s.ret = OB_SUCCESS ∧ s.found = false
    · obtain ⟨cells⟩ := row
      cases cells with
      | nil =>
        simp only [scan_rows, hc, and_self, if_true]
        exact ih _ ⟨fun _ => hs.1 hc.2, hs.2.1, hs.2.2⟩
      | cons c cs =>
        by_cases hm : obj_eq src c = true
        · simp only [scan_rows, hc, and_self, if_true, hm, push_back]
          rw [scan_rows_stuck _ _ _ _ _ (by simp)]
          refine ⟨by simp, by simp [hs.1 hc.2], ?_⟩
          intro id hid
          simp only [hs.1 hc.2, List.nil_append, List.mem_singleton] at hid
          exact ⟨p, hp, hid.symm⟩
        · simp only [scan_rows, hc, and_self, if_true, hm]
          exact ih _ hs
    · rw [scan_rows_stuck _ _ _ _ _ hc]
      exact hs

theorem scan_parts_inv (obj_eq : ObjEq) (src : ObObj) (arr : List ListPartition) (di : Int) :
    ∀ (n i : Nat) (s s2 : ScanState), scan_inv arr s →
      scan_parts obj_eq src arr di n i s = some s2 → scan_inv arr s2 := by
  intro n
  induction n with
  | zero =>
    intro i s s2 hs h
    simp only [scan_parts, Option.some.injEq] at h
    exact h ▸ hs
  | succ n ih =>
    intro i s s2 hs h
    by_cases hc : s.ret = OB_SUCCESS ∧ s.found = false
    · rw [scan_parts, if_pos hc] at h
      by_cases hd : (i : Int) = di
      · rw [if_pos hd] at h
        exact ih _ _ _ hs h
      · rw [if_neg hd] at h
        cases hq : arr[i]? with
        | none => simp [hq] at h
        | some q =>
          simp only [hq] at h
          exact ih _ _ _ (scan_rows_inv obj_eq src arr q (List.getElem?_mem hq) _ s hs) h
    · rw [scan_parts_stuck _ _ _ _ _ _ _ hc, Option.some.injEq] at h
      exact h ▸ hs

theorem scan_parts_total (obj_eq : ObjEq) (src : ObObj) (arr : List ListPartition) (di : Int) :
    ∀ (n i : Nat) (s : ScanState), i + n ≤ arr.length →
      ∃ s2, scan_parts obj_eq src arr di n i s = some s2 := by
  intro n
  induction n with
  | zero => intro i s _; exact ⟨s, rfl⟩
  | succ n ih =>
    intro i s hlen
    by_cases hc : s.ret = OB_SUCCESS ∧ s.found = false
    · rw [scan_parts, if_pos hc]
      by_cases hd : (i : Int) = di
      · rw [if_pos hd]
        exact ih (i + 1) s (by omega)
      · rw [if_neg hd]
        have hq : arr[i]? = some (arr.get ⟨i, by omega⟩) := by
          simp [List.getElem?_eq_getElem (show i < arr.length by omega)]
        rw [hq]
        exact ih (i + 1) _ (by omega)
    · exact ⟨s, scan_parts_stuck _ _ _ _ _ _ _ hc⟩

/-- On a descriptor whose size is the length of its array, whose first partition has a first
row with a first cell, and whose default index is `OB_INVALID_INDEX` or a valid index, every
call of `get_part` with a single-column key returns. -/
theorem get_part_returns (to_type : Caster) (obj_eq : ObjEq) (d : ObPartDescList)
    (arr : List ListPartition) (range : ObNewRange) (ids0 : List Int) (src t : ObObj)
    (harr : d.part_array_ = some arr) (hsize : d.part_array_size_ = arr.length)
    (hkey : range.start_key_.obj_ptr_ = [src]) (ht : target_cell arr = some t)
    (hdef : d.default_part_array_idx_ = OB_INVALID_INDEX
      ∨ (0 ≤ d.default_part_array_idx_ ∧ d.default_part_array_idx_ < d.part_array_size_)) :
    ∃ out, get_part to_type obj_eq d range ids0 = some out := by
  have hn : d.part_array_size_.toNat = arr.length := by rw [hsize]; exact Int.toNat_ofNat _
  unfold get_part
  simp only [harr, hkey, ht, ObRowkey.get_obj_cnt, List.length_singleton, Nat.cast_one, ne_eq,
    not_true_eq_false, if_false, List.getElem?_cons_zero, hn]
  split
  · exact ⟨_, rfl⟩
  · split
    · exact ⟨_, rfl⟩
    · obtain ⟨s2, hs2⟩ := scan_parts_total obj_eq (cast_obj to_type src t).2 arr
        d.default_part_array_idx_ arr.length 0
        { ret := OB_SUCCESS, found := false, part_ids := [] } (by omega)
      rw [hs2]
      simp only
      split
      · rename_i hcond
        rcases hdef with hdef | ⟨h0, h1⟩
        · exact absurd hdef.symm hcond.2
        · have hlt : d.default_part_array_idx_.toNat < arr.length := by
            rw [hsize] at h1; omega
          simp [part_at, h0, List.getElem?_eq_getElem hlt]
      · exact ⟨_, rfl⟩

/-! ## Claims on `get_part` -/

/-- C4, as stated, fails: in `desc_default_first` the partition at index 0 is the default
partition; the first non-default partition holds a cell of type 22 and collation 45, yet the
key is cast to type 5 and collation 63, those of `part_array_[0]`, so that the key A no
longer equals the cell A of P1 and the lookup falls to the default partition. -/
theorem get_part_cast_target_counterexample :
    desc_default_first.default_part_array_idx_ = 0
      ∧ spec_target_cell [{ part_id_ := 9, rows_ := [{ cells_ := [lit5 "MAX"] }] },
          mk_part 1 ["A"]] 0 = some (lit "A")
      ∧ target_cell [{ part_id_ := 9, rows_ := [{ cells_ := [lit5 "MAX"] }] },
          mk_part 1 ["A"]] = some (lit5 "MAX")
      ∧ get_part retag_caster struct_eq desc_default_first (key1 (lit "A")) []
          = some { ret := OB_SUCCESS, part_ids := [9], self := desc_default_first,
                   range := key1 (lit5 "A") }
      ∧ get_part (fun _ _ o => retag_caster (lit "A").type_ (lit "A").cs_type_ o) struct_eq
          desc_default_first (key1 (lit "A")) []
          = some { ret := OB_SUCCESS, part_ids := [1], self := desc_default_first,
                   range := key1 (lit "A") } := by
  decide

/-- C4, amended: the type and collation the key is cast to are those of the first cell t of
the first row of `part_array_[0]`, whether or not that partition is the default one: two
casters that agree on that type and collation give the same result of `get_part`, and after
a call with a single-column key the key is the output of the caster for the type and
collation of t. -/
theorem get_part_cast_target (tt1 tt2 : Caster) (obj_eq : ObjEq) (d : ObPartDescList)
    (arr : List ListPartition) (p : ListPartition) (row : ObNewRow) (t : ObObj)
    (range : ObNewRange) (ids0 : List Int)
    (harr : d.part_array_ = some arr) (hp : arr[0]? = some p) (hrow : p.rows_[0]? = some row)
    (hcell : row.cells_[0]? = some t)
    (hagree : ∀ o : ObObj, tt1 t.type_ t.cs_type_ (o.set_collation_type t.cs_type_)
      = tt2 t.type_ t.cs_type_ (o.set_collation_type t.cs_type_)) :
    get_part tt1 obj_eq d range ids0 = get_part tt2 obj_eq d range ids0
      ∧ ∀ (src : ObObj) (out : GetPartOut), 0 < d.part_array_size_ →
          range.start_key_.obj_ptr_ = [src] → get_part tt1 obj_eq d range ids0 = some out →
          out.range = key1 (tt1 t.type_ t.cs_type_ (src.set_collation_type t.cs_type_)).2 := by
  have ht : target_cell arr = some t := by
    simp [target_cell, hp, hrow, ObNewRow.get_cell, hcell]
  constructor
  · unfold get_part
    simp only [harr, ht]
    split
    · rfl
    · split
      · rfl
      · cases hk : range.start_key_.obj_ptr_[0]? with
        | none => rfl
        | some src0 => simp only [cast_obj, hagree]
  · intro src out hpos hkey hout
    unfold get_part at hout
    simp only [harr, ht, hkey, ObRowkey.get_obj_cnt, not_le.mpr hpos, if_false,
      List.length_singleton, Nat.cast_one, ne_eq, not_true_eq_false, List.getElem?_cons_zero,
      List.set_cons_zero, push_back, cast_obj] at hout
    split at hout
    · cases hout; rfl
    · split at hout
      · cases hout
      · split at hout
        · split at hout
          · cases hout
          · cases hout; rfl
        · cases hout; rfl

/-- C4, witness of the amended claim on `desc_default_first`. -/
theorem get_part_cast_target_witness :
    get_part retag_caster struct_eq desc_default_first (key1 (lit "A")) []
      = get_part (fun _ _ o => retag_caster 5 63 o) struct_eq desc_default_first
          (key1 (lit "A")) [] :=
  (get_part_cast_target retag_caster (fun _ _ o => retag_caster 5 63 o) struct_eq
    desc_default_first [{ part_id_ := 9, rows_ := [{ cells_ := [lit5 "MAX"] }] },
      mk_part 1 ["A"]] { part_id_ := 9, rows_ := [{ cells_ := [lit5 "MAX"] }] }
    { cells_ := [lit5 "MAX"] } (lit5 "MAX") (key1 (lit "A")) [] rfl rfl rfl rfl
    (fun _ => rfl)).1

/-- C5: `get_part` returns `OB_INVALID_ARGUMENT` and leaves `part_ids` empty whenever
`part_array_` is null, or `part_array_size_` is at most 0, or the key does not have exactly
one column. The result does not depend on the caster nor on the comparison, and the range is
handed back as it was: neither a cast nor a scan takes place. -/
theorem get_part_invalid_argument (to_type : Caster) (obj_eq : ObjEq) (d : ObPartDescList)
    (range : ObNewRange) (ids0 : List Int)
    (h : d.part_array_ = none ∨ d.part_array_size_ ≤ 0
      ∨ range.start_key_.get_obj_cnt ≠ 1) :
    get_part to_type obj_eq d range ids0
      = some { ret := OB_INVALID_ARGUMENT, part_ids := [], self := d, range := range } := by
  unfold get_part
  cases harr : d.part_array_ with
  | none => rfl
  | some arr =>
    simp only
    by_cases hs : d.part_array_size_ ≤ 0
    · rw [if_pos hs]
    · rw [if_neg hs]
      rcases h with h | h | h
      · rw [harr] at h; cases h
      · exact absurd h hs
      · rw [if_pos h]

/-- C5, witness: a null array, a size of 0, a key of two columns and a key of no column. -/
theorem get_part_invalid_argument_witness :
    get_part retag_caster struct_eq ObPartDescList.new (key1 (lit "A")) [7]
        = some { ret := OB_INVALID_ARGUMENT, part_ids := [], self := ObPartDescList.new,
                 range := key1 (lit "A") }
      ∧ get_part retag_caster struct_eq
          { part_array_ := some [], part_array_size_ := 0, default_part_array_idx_ := -1 }
          (key1 (lit "A")) [7]
        = some { ret := OB_INVALID_ARGUMENT, part_ids := [],
                 self := { part_array_ := some [], part_array_size_ := 0,
                           default_part_array_idx_ := -1 },
                 range := key1 (lit "A") }
      ∧ get_part retag_caster struct_eq desc_abc
          { start_key_ := { obj_ptr_ := [lit "A", lit "B"] } } [7]
        = some { ret := OB_INVALID_ARGUMENT, part_ids := [], self := desc_abc,
                 range := { start_key_ := { obj_ptr_ := [lit "A", lit "B"] } } }
      ∧ get_part retag_caster struct_eq desc_abc { start_key_ := { obj_ptr_ := [] } } [7]
        = some { ret := OB_INVALID_ARGUMENT, part_ids := [], self := desc_abc,
                 range := { start_key_ := { obj_ptr_ := [] } } } :=
  ⟨get_part_invalid_argument _ _ _ _ _ (Or.inl rfl),
   get_part_invalid_argument _ _ _ _ _ (Or.inr (Or.inl (by decide))),
   get_part_invalid_argument _ _ _ _ _ (Or.inr (Or.inr (by decide))),
   get_part_invalid_argument _ _ _ _ _ (Or.inr (Or.inr (by decide)))⟩

/-- C6, as stated, fails: on the descriptor without partitions that the constructor builds,
`get_part` returns `OB_INVALID_ARGUMENT`, which is not the type-mismatch code. -/
theorem get_part_empty_descriptor_counterexample :
    get_part retag_caster struct_eq ObPartDescList.new (key1 (lit "A")) []
        = some { ret := OB_INVALID_ARGUMENT, part_ids := [], self := ObPartDescList.new,
                 range := key1 (lit "A") }
      ∧ OB_INVALID_ARGUMENT ≠ OB_OBJ_TYPE_ERROR := by
  decide

/-- C6, amended: for every descriptor that has no partitions (`part_array_` null or
`part_array_size_` at most 0) `get_part` fails with `OB_INVALID_ARGUMENT`, the
InvalidArgument error kind, whatever the key is. -/
theorem get_part_empty_descriptor (to_type : Caster) (obj_eq : ObjEq) (d : ObPartDescList)
    (range : ObNewRange) (ids0 : List Int)
    (h : d.part_array_ = none ∨ d.part_array_size_ ≤ 0) :
    ∃ out, get_part to_type obj_eq d range ids0 = some out
      ∧ out.ret = OB_INVALID_ARGUMENT ∧ out.ret ≠ OB_SUCCESS
      ∧ out.ret ≠ OB_OBJ_TYPE_ERROR := by
  refine ⟨{ ret := OB_INVALID_ARGUMENT, part_ids := [], self := d, range := range }, ?_, rfl,
    (by decide : OB_INVALID_ARGUMENT ≠ OB_SUCCESS),
    (by decide : OB_INVALID_ARGUMENT ≠ OB_OBJ_TYPE_ERROR)⟩
  unfold get_part
  cases harr : d.part_array_ with
  | none => rfl
  | some arr =>
    rcases h with h | h
    · rw [harr] at h; cases h
    · simp only [if_pos h]

/-- C6, witness of the amended claim: a non-null array of size 0 and a key of two columns. -/
theorem get_part_empty_descriptor_witness :
    ∃ out, get_part retag_caster struct_eq
        { part_array_ := some [], part_array_size_ := 0, default_part_array_idx_ := -1 }
        { start_key_ := { obj_ptr_ := [lit "A", lit "B"] } } [] = some out
      ∧ out.ret = OB_INVALID_ARGUMENT ∧ out.ret ≠ OB_SUCCESS
      ∧ out.ret ≠ OB_OBJ_TYPE_ERROR :=
  get_part_empty_descriptor _ _ _ _ _ (Or.inr (by decide))

/-- C7, as stated, fails: with a caster that rejects the cast as unsupported, `get_part`
returns the code of the caster, which is not `OB_INVALID_ARGUMENT`. -/
theorem get_part_cast_failure_counterexample :
    (cast_obj unsupported_caster (lit "A") (lit "A")).1 ≠ OB_SUCCESS
      ∧ get_part unsupported_caster struct_eq desc_abc (key1 (lit "A")) []
        = some { ret := OB_NOT_SUPPORTED, part_ids := [], self := desc_abc,
                 range := key1 (lit "A") }
      ∧ OB_NOT_SUPPORTED ≠ OB_INVALID_ARGUMENT := by
  decide

/-- C7, amended: for a non-empty descriptor and a single-column key, if the cast of the key
to the type of the cast target fails, `get_part` fails with the code the caster returned,
performs no scan and returns no partition id: `part_ids` is empty whatever the comparison
and the default index are. -/
theorem get_part_cast_failure (to_type : Caster) (obj_eq : ObjEq) (d : ObPartDescList)
    (arr : List ListPartition) (range : ObNewRange) (ids0 : List Int) (src t : ObObj)
    (harr : d.part_array_ = some arr) (hsize : 0 < d.part_array_size_)
    (hkey : range.start_key_.obj_ptr_ = [src]) (ht : target_cell arr = some t)
    (hfail : (cast_obj to_type src t).1 ≠ OB_SUCCESS) :
    get_part to_type obj_eq d range ids0
      = some { ret := (cast_obj to_type src t).1, part_ids := [], self := d,
               range := key1 (cast_obj to_type src t).2 } := by
  unfold get_part
  simp only [harr, hkey, ht, ObRowkey.get_obj_cnt, not_le.mpr hsize, if_false,
    List.length_singleton, Nat.cast_one, ne_eq, not_true_eq_false, List.getElem?_cons_zero,
    List.set_cons_zero]
  rw [if_pos hfail]
  rfl

/-- C7, witness of the amended claim: the unsupported cast on the specification example,
whose default partition is not used. -/
theorem get_part_cast_failure_witness :
    get_part unsupported_caster struct_eq desc_abc (key1 (lit "C")) [8]
      = some { ret := OB_NOT_SUPPORTED, part_ids := [], self := desc_abc,
               range := key1 (lit "C") } :=
  get_part_cast_failure unsupported_caster struct_eq desc_abc
    [mk_part 1 ["A"], mk_part 2 ["B"], mk_part 3 ["DEFAULT"]] (key1 (lit "C")) [8] (lit "C")
    (lit "A") rfl (by decide) rfl rfl (by decide)

/-- C8: whenever `get_part` returns, with success or with an error and whatever `part_ids`
held before, `part_ids` holds at most one id and an id it holds is the `part_id_` of a
partition of the array of the descriptor. -/
theorem get_part_at_most_one (to_type : Caster) (obj_eq : ObjEq) (d : ObPartDescList)
    (range : ObNewRange) (ids0 : List Int) (out : GetPartOut)
    (h : get_part to_type obj_eq d range ids0 = some out) :
    out.part_ids.length ≤ 1
      ∧ ∀ id ∈ out.part_ids, ∃ arr p, d.part_array_ = some arr ∧ p ∈ arr
          ∧ p.part_id_ = id := by
  obtain ⟨_, hcases⟩ := get_part_some_cases to_type obj_eq d range ids0 out h
  rcases hcases with hnil | ⟨arr, src, s, harr, hscan, hout⟩
  · rw [hnil]; simp
  · have hinv : scan_inv arr s :=
      scan_parts_inv obj_eq src arr d.default_part_array_idx_ _ _ _ s
        ⟨fun _ => rfl, by simp, by simp⟩ hscan
    rcases hout with hout | ⟨hf, pd, hpd, hout⟩
    · rw [hout]
      refine ⟨hinv.2.1, ?_⟩
      intro id hid
      obtain ⟨p, hp, hpid⟩ := hinv.2.2 id hid
      exact ⟨arr, p, harr, hp, hpid⟩
    · rw [hout, hinv.1 hf]
      refine ⟨by simp, ?_⟩
      intro id hid
      simp only [List.nil_append, List.mem_singleton] at hid
      refine ⟨arr, pd, harr, ?_, hid.symm⟩
      unfold part_at at hpd
      split at hpd
      · exact List.getElem?_mem hpd
      · cases hpd

/-- C8, witness: the lookup of C in `desc_dup`, with a prior content of three ids. -/
theorem get_part_at_most_one_witness :
    ([2] : List Int).length ≤ 1
      ∧ ∀ id ∈ ([2] : List Int), ∃ arr p, desc_dup.part_array_ = some arr ∧ p ∈ arr
          ∧ p.part_id_ = id :=
  get_part_at_most_one retag_caster struct_eq desc_dup (key1 (lit "C")) [5, 6, 7]
    { ret := OB_SUCCESS, part_ids := [2], self := desc_dup, range := key1 (lit "C") }
    (by decide)

/-- C9, the code at the failing inputs: on a descriptor of size 1 whose only partition has no
rows, and on one whose first row has no cells, `get_part` with a single-column key reads
`part_array_[0].rows_[0].get_cell(0)` outside the bounds of an array and yields neither a
result nor an error code. -/
theorem get_part_out_of_bounds :
    get_part retag_caster struct_eq desc_no_rows (key1 (lit "A")) [] = none
      ∧ get_part retag_caster struct_eq desc_no_cells (key1 (lit "A")) [] = none := by
  decide

theorem web_rs_list_loop_set (loc_ne : LocNe) (l o : LocationList) :
    web_rs_list_loop loc_ne l o true = true := by
  cases l with
  | nil => rfl
  | cons a l =>
    cases o with
    | nil => rfl
    | cons b o => simp [web_rs_list_loop]

theorem web_rs_list_loop_iff (loc_ne : LocNe) :
    ∀ (l o : LocationList), l.length = o.length →
      (web_rs_list_loop loc_ne l o false = true ↔
        ∃ (i : Nat) (a b : ObProxyReplicaLocation),
          l[i]? = some a ∧ o[i]? = some b ∧ loc_ne a b = true) := by
  intro l
  induction l with
  | nil =>
    intro o _
    constructor
    · intro h; simp [web_rs_list_loop] at h
    · rintro ⟨i, a, b, h, _⟩; simp at h
  | cons x l ih =>
    intro o hlen
    cases o with
    | nil => simp at hlen
    | cons y o =>
      have hlen2 : l.length = o.length := by simpa using hlen
      have hstep : web_rs_list_loop loc_ne (x :: l) (y :: o) false
          = web_rs_list_loop loc_ne l o (if loc_ne x y = true then true else false) := by
        simp [web_rs_list_loop]
      rw [hstep]
      by_cases hne : loc_ne x y = true
      · rw [if_pos hne, web_rs_list_loop_set]
        simp only [true_iff]
        exact ⟨0, x, y, by simp, by simp, hne⟩
      · rw [if_neg hne, ih o hlen2]
        constructor
        · rintro ⟨i, a, b, h1, h2, h3⟩
          exact ⟨i + 1, a, b, by simpa using h1, by simpa using h2, h3⟩
        · rintro ⟨i, a, b, h1, h2, h3⟩
          cases i with
          | zero =>
            simp at h1 h2
            subst h1; subst h2
            exact absurd h3 hne
          | succ i => exact ⟨i, a, b, by simpa using h1, by simpa using h2, h3⟩

/-- C11: `is_web_rs_list_changed(other)` is true exactly when the stored list and `other`
differ in count or some position holds two locations that `!=` tells apart. Hence it is
false for a list compared with itself when `!=` never tells a location from itself, and true
for the stored list A, B compared with B, A when `!=` tells A from B. -/
theorem is_web_rs_list_changed_iff (loc_ne : LocNe) (s : ObProxySubClusterInfo)
    (other : LocationList) :
    (s.is_web_rs_list_changed loc_ne other = true ↔
        (s.web_rs_list_.length ≠ other.length
          ∨ ∃ (i : Nat) (a b : ObProxyReplicaLocation),
              s.web_rs_list_[i]? = some a ∧ other[i]? = some b ∧ loc_ne a b = true))
      ∧ ((∀ a, loc_ne a a = false) → s.is_web_rs_list_changed loc_ne s.web_rs_list_ = false)
      ∧ (∀ a b, s.web_rs_list_ = [a, b] → loc_ne a b = true →
          s.is_web_rs_list_changed loc_ne [b, a] = true) := by
  have hiff : s.is_web_rs_list_changed loc_ne other = true ↔
      (s.web_rs_list_.length ≠ other.length
        ∨ ∃ (i : Nat) (a b : ObProxyReplicaLocation),
            s.web_rs_list_[i]? = some a ∧ other[i]? = some b ∧ loc_ne a b = true) := by
    unfold ObProxySubClusterInfo.is_web_rs_list_changed
    by_cases hlen : s.web_rs_list_.length = other.length
    · rw [if_neg (not_not.mpr hlen), web_rs_list_loop_iff loc_ne _ _ hlen]
      constructor
      · intro h; exact Or.inr h
      · rintro (h | h)
        · exact absurd hlen h
        · exact h
    · rw [if_pos hlen]
      simp [hlen]
  refine ⟨hiff, ?_, ?_⟩
  · intro hirr
    unfold ObProxySubClusterInfo.is_web_rs_list_changed
    rw [if_neg (not_not.mpr rfl)]
    cases hb : web_rs_list_loop loc_ne s.web_rs_list_ s.web_rs_list_ false with
    | false => rfl
    | true =>
      obtain ⟨i, a, b, h1, h2, h3⟩ := (web_rs_list_loop_iff loc_ne _ _ rfl).mp hb
      rw [h1] at h2
      cases h2
      rw [hirr a] at h3
      cases h3
  · intro a b hab hne
    unfold ObProxySubClusterInfo.is_web_rs_list_changed
    simp [hab, web_rs_list_loop, hne, web_rs_list_loop_set]

/-- C11, witness: the stored list A, B against itself and against B, A under structural
inequality. -/
theorem is_web_rs_list_changed_witness :
    sub_ab.is_web_rs_list_changed struct_ne sub_ab.web_rs_list_ = false
      ∧ sub_ab.is_web_rs_list_changed struct_ne [loc_b, loc_a] = true :=
  ⟨(is_web_rs_list_changed_iff struct_ne sub_ab []).2.1 (by intro a; simp [struct_ne]),
   (is_web_rs_list_changed_iff struct_ne sub_ab []).2.2 loc_a loc_b rfl (by decide)⟩

theorem idc_list_loop_set (l o : ObProxyIDCList) : idc_list_loop l o true = true := by
  cases l with
  | nil => rfl
  | cons a l =>
    cases o with
    | nil => rfl
    | cons b o => simp [idc_list_loop]

theorem idc_list_loop_iff :
    ∀ (l o : ObProxyIDCList), l.length = o.length →
      (idc_list_loop l o false = true ↔
        ∃ (i : Nat) (a b : ObProxyIDCInfo),
          l[i]? = some a ∧ o[i]? = some b ∧ a.idc_hash_ ≠ b.idc_hash_) := by
  intro l
  induction l with
  | nil =>
    intro o _
    constructor
    · intro h; simp [idc_list_loop] at h
    · rintro ⟨i, a, b, h, _⟩; simp at h
  | cons x l ih =>
    intro o hlen
    cases o with
    | nil => simp at hlen
    | cons y o =>
      have hlen2 : l.length = o.length := by simpa using hlen
      have hstep : idc_list_loop (x :: l) (y :: o) false
          = idc_list_loop l o (if x.idc_hash_ ≠ y.idc_hash_ then true else false) := by
        simp [idc_list_loop]
      rw [hstep]
      by_cases hne : x.idc_hash_ ≠ y.idc_hash_
      · rw [if_pos hne, idc_list_loop_set]
        simp only [true_iff]
        exact ⟨0, x, y, by simp, by simp, hne⟩
      · rw [if_neg hne, ih o hlen2]
        constructor
        · rintro ⟨i, a, b, h1, h2, h3⟩
          exact ⟨i + 1, a, b, by simpa using h1, by simpa using h2, h3⟩
        · rintro ⟨i, a, b, h1, h2, h3⟩
          cases i with
          | zero =>
            simp at h1 h2
            subst h1; subst h2
            exact absurd h3 hne
          | succ i => exact ⟨i, a, b, by simpa using h1, by simpa using h2, h3⟩

theorem idc_list_loop_hashes :
    ∀ (l o l2 o2 : ObProxyIDCList) (bret : Bool),
      l.map (fun x => x.idc_hash_) = l2.map (fun x => x.idc_hash_) →
      o.map (fun x => x.idc_hash_) = o2.map (fun x => x.idc_hash_) →
      idc_list_loop l o bret = idc_list_loop l2 o2 bret := by
  intro l
  induction l with
  | nil =>
    intro o l2 o2 bret h1 _
    cases l2 with
    | nil => simp [idc_list_loop]
    | cons a l2 => simp at h1
  | cons x l ih =>
    intro o l2 o2 bret h1 h2
    cases l2 with
    | nil => simp at h1
    | cons x2 l2 =>
      simp only [List.map_cons, List.cons.injEq] at h1
      cases o with
      | nil =>
        cases o2 with
        | nil => simp [idc_list_loop]
        | cons y2 o2 => simp at h2
      | cons y o =>
        cases o2 with
        | nil => simp at h2
        | cons y2 o2 =>
          simp only [List.map_cons, List.cons.injEq] at h2
          simp only [idc_list_loop, h1.1, h2.1]
          rw [ih o l2 o2 _ h1.2 h2.2]

/-- C12: `is_idc_list_changed(other)` is true exactly when the stored IDC list and `other`
differ in count or have a different `idc_hash_` at some position; the names are not
consulted: two calls on lists with the same hashes, position by position, agree whatever
`idc_name_` and `region_name_` hold. -/
theorem is_idc_list_changed_iff (s : ObProxySubClusterInfo) (other : ObProxyIDCList) :
    (s.is_idc_list_changed other = true ↔
        (s.idc_list_.length ≠ other.length
          ∨ ∃ (i : Nat) (a b : ObProxyIDCInfo),
              s.idc_list_[i]? = some a ∧ other[i]? = some b ∧ a.idc_hash_ ≠ b.idc_hash_))
      ∧ ∀ (s2 : ObProxySubClusterInfo) (other2 : ObProxyIDCList),
          s.idc_list_.map (fun x => x.idc_hash_) = s2.idc_list_.map (fun x => x.idc_hash_) →
          other.map (fun x => x.idc_hash_) = other2.map (fun x => x.idc_hash_) →
          s.is_idc_list_changed other = s2.is_idc_list_changed other2 := by
  constructor
  · unfold ObProxySubClusterInfo.is_idc_list_changed
    by_cases hlen : s.idc_list_.length = other.length
    · rw [if_neg (not_not.mpr hlen), idc_list_loop_iff _ _ hlen]
      constructor
      · intro h; exact Or.inr h
      · rintro (h | h)
        · exact absurd hlen h
        · exact h
    · rw [if_pos hlen]
      simp [hlen]
  · intro s2 other2 h1 h2
    unfold ObProxySubClusterInfo.is_idc_list_changed
    have hl1 : s.idc_list_.length = s2.idc_list_.length := by
      simpa using congrArg List.length h1
    have hl2 : other.length = other2.length := by
      simpa using congrArg List.length h2
    rw [hl1, hl2, idc_list_loop_hashes _ _ _ _ false h1 h2]

/-- C12, witness: two IDC lists with the same hash and different names are not reported as
changed. -/
theorem is_idc_list_changed_witness :
    ({ sub_ab with idc_list_ := [idc 7 "hz" "east"] }).is_idc_list_changed
        [idc 7 "sh" "north"]
      = ({ sub_ab with idc_list_ := [idc 7 "sh" "north"] }).is_idc_list_changed
        [idc 7 "sh" "north"] :=
  (is_idc_list_changed_iff { sub_ab with idc_list_ := [idc 7 "hz" "east"] }
    [idc 7 "sh" "north"]).2 { sub_ab with idc_list_ := [idc 7 "sh" "north"] }
    [idc 7 "sh" "north"] rfl rfl

/-! ## A row without cells in the scan of `get_part` -/

/-- C20, the code at the failing input: in `desc_zero_cell_default` the scan for the key B
meets a row without cells before any match and sets `OB_ERR_UNEXPECTED`, yet `get_part`
returns `OB_SUCCESS` and the id of the default partition; without a default partition
(`desc_zero_cell`) it returns `OB_ERR_UNEXPECTED` and no id. -/
theorem get_part_zero_cell_row :
    get_part retag_caster struct_eq desc_zero_cell_default (key1 (lit "B")) []
        = some { ret := OB_SUCCESS, part_ids := [2], self := desc_zero_cell_default,
                 range := key1 (lit "B") }
      ∧ get_part retag_caster struct_eq desc_zero_cell (key1 (lit "B")) []
        = some { ret := OB_ERR_UNEXPECTED, part_ids := [], self := desc_zero_cell,
                 range := key1 (lit "B") } := by
  decide

/-! ## Claims on the comparisons and the validity of the directory -/

theorem ob_string_eq_iff (a b : ObString) : a.eq b = true ↔ a = b := by
  obtain ⟨x⟩ := a
  obtain ⟨y⟩ := b
  simp [ObString.eq]

theorem ob_string_empty_iff (a : ObString) : a.empty = true ↔ a.ptr_ = [] := by
  simp [ObString.empty]

theorem cluster_eq_strings (a b : ObProxyClusterInfo) :
    a.eq b = true ↔ (a.cluster_name_.config_string_ = b.cluster_name_.config_string_
      ∧ a.rs_url_.url_ = b.rs_url_.url_) := by
  simp [ObProxyClusterInfo.eq, ObProxyConfigString.eq, ObProxyConfigUrl.eq, ob_string_eq_iff]

/-- C13, as stated, fails: two meta-table records that differ only in the real cluster name,
empty in one and not in the other, compare equal under `operator==`. -/
theorem meta_table_eq_counterexample :
    (cfg_str "").config_string_ ≠ (cfg_str "real").config_string_
      ∧ (meta_table "db" "user" "pw" "" (cluster "meta" "url" 0 [])).eq
          (meta_table "db" "user" "pw" "real" (cluster "meta" "url" 0 [])) = true := by
  decide

/-- C13, amended: two meta-table records compare equal under `operator==` exactly when their
db, username and password strings are equal, their cluster records compare equal, and their
real cluster names are equal or at least one of the two is empty. -/
theorem meta_table_eq_iff (a b : ObProxyMetaTableInfo) :
    a.eq b = true ↔
      (a.db_.config_string_ = b.db_.config_string_
        ∧ a.username_.config_string_ = b.username_.config_string_
        ∧ a.password_.config_string_ = b.password_.config_string_
        ∧ (a.real_cluster_name_.config_string_.ptr_ = []
            ∨ b.real_cluster_name_.config_string_.ptr_ = []
            ∨ a.real_cluster_name_.config_string_ = b.real_cluster_name_.config_string_)
        ∧ a.cluster_info_.eq b.cluster_info_ = true) := by
  simp only [ObProxyMetaTableInfo.eq, Bool.and_eq_true, Bool.or_eq_true, ObProxyConfigString.eq,
    ObProxyConfigString.empty, ob_string_eq_iff, ob_string_empty_iff]
  tauto

/-- C14: two cluster records compare equal under `operator==` exactly when their cluster
name strings are equal and their rs url strings are equal; the master cluster id and the
sub-cluster map have no influence, and `operator!=` is the negation. -/
theorem cluster_info_eq_iff (a b : ObProxyClusterInfo) :
    (a.eq b = true ↔ (a.cluster_name_.config_string_ = b.cluster_name_.config_string_
        ∧ a.rs_url_.url_ = b.rs_url_.url_))
      ∧ (∀ (m1 m2 : Int) (subs1 subs2 : List ObProxySubClusterInfo),
          ({ a with master_cluster_id_ := m1, sub_ci_map_ := subs1 }).eq
            { b with master_cluster_id_ := m2, sub_ci_map_ := subs2 } = a.eq b)
      ∧ a.ne b = !(a.eq b) :=
  ⟨cluster_eq_strings a b, fun _ _ _ _ => rfl, rfl⟩

/-- C15: whenever `ObProxyJsonConfigInfo::is_valid()` is true, the version, the bin url, the
meta-table db, username and password and the cluster name of the meta cluster are all
non-empty; and if one of the six is empty, `is_valid()` is false. -/
theorem json_config_info_is_valid (ca_valid : ClusterArrayValid) (c : ObProxyJsonConfigInfo) :
    (c.is_valid ca_valid = true →
        c.data_info_.version_.config_string_.ptr_ ≠ []
          ∧ c.data_info_.bin_url_.url_.ptr_ ≠ []
          ∧ c.data_info_.meta_table_info_.db_.config_string_.ptr_ ≠ []
          ∧ c.data_info_.meta_table_info_.username_.config_string_.ptr_ ≠ []
          ∧ c.data_info_.meta_table_info_.password_.config_string_.ptr_ ≠ []
          ∧ c.data_info_.meta_table_info_.cluster_info_.cluster_name_.config_string_.ptr_ ≠ [])
      ∧ ((c.data_info_.version_.config_string_.ptr_ = []
          ∨ c.data_info_.bin_url_.url_.ptr_ = []
          ∨ c.data_info_.meta_table_info_.db_.config_string_.ptr_ = []
          ∨ c.data_info_.meta_table_info_.username_.config_string_.ptr_ = []
          ∨ c.data_info_.meta_table_info_.password_.config_string_.ptr_ = []
          ∨ c.data_info_.meta_table_info_.cluster_info_.cluster_name_.config_string_.ptr_ = [])
        → c.is_valid ca_valid = false) := by
  have key : c.is_valid ca_valid = true →
      c.data_info_.version_.config_string_.ptr_ ≠ []
        ∧ c.data_info_.bin_url_.url_.ptr_ ≠ []
        ∧ c.data_info_.meta_table_info_.db_.config_string_.ptr_ ≠ []
        ∧ c.data_info_.meta_table_info_.username_.config_string_.ptr_ ≠ []
        ∧ c.data_info_.meta_table_info_.password_.config_string_.ptr_ ≠ []
        ∧ c.data_info_.meta_table_info_.cluster_info_.cluster_name_.config_string_.ptr_
            ≠ [] := by
    intro h
    simp only [ObProxyJsonConfigInfo.is_valid, ObProxyDataInfo.is_valid,
      ObProxyMetaTableInfo.is_valid, ObProxyClusterInfo.is_valid, ObProxyConfigString.is_valid,
      ObProxyConfigUrl.is_valid, Bool.and_eq_true, Bool.not_eq_true', ObString.empty,
      List.isEmpty_eq_false] at h
    simp only [ne_eq]
    tauto
  refine ⟨key, ?_⟩
  intro h
  cases hv : c.is_valid ca_valid with
  | false => rfl
  | true =>
    have := key hv
    tauto

/-- C15, witness: a directory whose six fields are non-empty is valid when its cluster array
is, and it is not once the meta-table password is empty. -/
theorem json_config_info_is_valid_witness :
    ObProxyJsonConfigInfo.is_valid (fun _ => true)
        (directory "v1" "http://bin" (meta_table "db" "user" "pw" "" (cluster "meta" "url" 0 [])))
        = true
      ∧ ObProxyJsonConfigInfo.is_valid (fun _ => true)
        (directory "v1" "http://bin" (meta_table "db" "user" "" "" (cluster "meta" "url" 0 [])))
        = false :=
  ⟨by decide,
   (json_config_info_is_valid (fun _ => true)
      (directory "v1" "http://bin" (meta_table "db" "user" "" "" (cluster "meta" "url" 0 [])))).2
      (Or.inr (Or.inr (Or.inr (Or.inr (Or.inl rfl)))))⟩

/-! ## Lemmas on `ObProxyConfigString::set_value` and `assign` -/

theorem take_set_self (l : List Char) (n : Nat) (c : Char) :
    (l.set n c).take n = l.take n := by
  induction l generalizing n with
  | nil => simp
  | cons x l ih =>
    cases n with
    | zero => simp
    | succ n => simp [ih]

/-- On a buffer of 512 characters `set_value` with a value of at most 511 characters returns
and stores the value. -/
theorem set_value_fits (s : ObProxyConfigString) (value : ObString)
    (hbuf : s.config_string_str_.length = 512) (hlen : value.length ≤ 511) :
    ∃ b, b.length = 512 ∧ s.set_value value
      = some { config_string_ := value, size_limit_ := s.size_limit_,
               config_string_str_ := b } := by
  obtain ⟨v⟩ := value
  simp only [ObString.length] at hlen
  unfold ObProxyConfigString.set_value
  by_cases he : v = []
  · subst he
    refine ⟨List.replicate 512 (Char.ofNat 0) ++ s.config_string_str_.drop 512, ?_, ?_⟩
    · simp only [List.length_append, List.length_replicate, List.length_drop, hbuf]
    · have hset : memset s.config_string_str_ (Char.ofNat 0) 512
          = some (List.replicate 512 (Char.ofNat 0) ++ s.config_string_str_.drop 512) := by
        unfold memset
        rw [if_pos (by omega)]
      simp only [ObString.empty, List.isEmpty_nil, if_true, OB_PROXY_MAX_CONFIG_STRING_LENGTH,
        hset, ObString.reset]
  · have hmin : min v.length (512 - 1) = v.length := by omega
    refine ⟨(v.take v.length ++ s.config_string_str_.drop v.length).set v.length (Char.ofNat 0),
      by simp [hbuf]; omega, ?_⟩
    have hcpy : memcpy s.config_string_str_ v v.length
        = some (v.take v.length ++ s.config_string_str_.drop v.length) := by
      unfold memcpy
      rw [if_pos ⟨by omega, le_refl _⟩]
    have hst : buf_store (v.take v.length ++ s.config_string_str_.drop v.length) v.length
        (Char.ofNat 0)
        = some ((v.take v.length ++ s.config_string_str_.drop v.length).set v.length
            (Char.ofNat 0)) := by
      unfold buf_store
      rw [if_pos (by simp [hbuf]; omega)]
    simp only [ObString.empty, List.isEmpty_eq_true, he, if_false, ObString.length,
      OB_PROXY_MAX_CONFIG_STRING_LENGTH, hmin, hcpy, hst, Bool.false_eq_true]
    rw [take_set_self]
    simp

/-- On a buffer of 512 characters `set_value` with a value of 512 characters or more writes
the terminating NUL outside the buffer. -/
theorem set_value_long (s : ObProxyConfigString) (value : ObString)
    (hbuf : s.config_string_str_.length = 512) (hlen : 512 ≤ value.length) :
    s.set_value value = none := by
  obtain ⟨v⟩ := value
  simp only [ObString.length] at hlen
  unfold ObProxyConfigString.set_value
  have he : v ≠ [] := by
    intro h; subst h; simp at hlen
  have hmin : min v.length (512 - 1) = 511 := by omega
  have hcpy : memcpy s.config_string_str_ v 511
      = some (v.take 511 ++ s.config_string_str_.drop 511) := by
    unfold memcpy
    rw [if_pos ⟨by omega, by omega⟩]
  have hst : buf_store (v.take 511 ++ s.config_string_str_.drop 511) v.length (Char.ofNat 0)
      = none := by
    unfold buf_store
    rw [if_neg (by simp [hbuf]; omega)]
  simp only [ObString.empty, List.isEmpty_eq_true, he, if_false, ObString.length,
    OB_PROXY_MAX_CONFIG_STRING_LENGTH, hmin, hcpy, hst, Bool.false_eq_true]

/-- What a returning `assign` between distinct objects leaves, on a buffer of 512
characters: the return code is `OB_SUCCESS`, the source has at most 511 characters, and the
stored string is the one of the source. -/
theorem assign_some_inv (s other s2 : ObProxyConfigString) (ret : Int)
    (hbuf : s.config_string_str_.length = 512)
    (h : s.assign other false = some (ret, s2)) :
    ret = OB_SUCCESS ∧ other.config_string_.length ≤ 511
      ∧ s2.config_string_ = other.config_string_ ∧ s2.size_limit_ = s.size_limit_
      ∧ s2.config_string_str_.length = 512 := by
  unfold ObProxyConfigString.assign at h
  simp only [if_true] at h
  by_cases hlen : other.config_string_.length ≤ 511
  · obtain ⟨b, hb, hset⟩ := set_value_fits s other.config_string_ hbuf hlen
    rw [hset] at h
    simp only [Option.some.injEq, Prod.mk.injEq] at h
    obtain ⟨h1, h2⟩ := h
    subst h2
    exact ⟨h1.symm, hlen, rfl, rfl, hb⟩
  · rw [set_value_long s other.config_string_ hbuf (by omega)] at h
    cases h

/-- On a buffer of 512 characters `assign` between distinct objects from a source of at most
511 characters returns `OB_SUCCESS`. -/
theorem assign_fits (s other : ObProxyConfigString)
    (hbuf : s.config_string_str_.length = 512) (hlen : other.config_string_.length ≤ 511) :
    ∃ b, b.length = 512 ∧ s.assign other false
      = some (OB_SUCCESS, { config_string_ := other.config_string_,
                            size_limit_ := s.size_limit_, config_string_str_ := b }) := by
  obtain ⟨b, hb, hset⟩ := set_value_fits s other.config_string_ hbuf hlen
  refine ⟨b, hb, ?_⟩
  unfold ObProxyConfigString.assign
  simp [hset]

theorem cfg_str_buf (str : String) (h : str.toList.length ≤ 512) :
    (cfg_str str).config_string_str_.length = 512 := by
  simp only [cfg_str, buf_of, OB_PROXY_MAX_CONFIG_STRING_LENGTH, List.length_append,
    List.length_replicate]
  omega

/-- What a returning `get_meta_table_login_info` leaves when the buffers of `info` have 512
characters: the return code is `OB_SUCCESS` and the three strings are those of the
directory. -/
theorem login_info_inv (c : ObProxyJsonConfigInfo) (info info2 : ObProxyLoginInfo) (ret : Int)
    (hd : info.db_.config_string_str_.length = 512)
    (hu : info.username_.config_string_str_.length = 512)
    (hp : info.password_.config_string_str_.length = 512)
    (h : c.get_meta_table_login_info info = some (ret, info2)) :
    ret = OB_SUCCESS
      ∧ info2.db_.config_string_ = c.data_info_.meta_table_info_.db_.config_string_
      ∧ info2.username_.config_string_
          = c.data_info_.meta_table_info_.username_.config_string_
      ∧ info2.password_.config_string_
          = c.data_info_.meta_table_info_.password_.config_string_ := by
  unfold ObProxyJsonConfigInfo.get_meta_table_login_info at h
  cases hA : info.username_.assign c.data_info_.meta_table_info_.username_ false with
  | none => rw [hA] at h; cases h
  | some r1 =>
    obtain ⟨ret1, u⟩ := r1
    obtain ⟨e1, _, su, _, _⟩ := assign_some_inv _ _ _ _ hu hA
    subst e1
    rw [hA] at h
    simp only [ne_eq, not_true_eq_false, if_false] at h
    cases hB : info.password_.assign c.data_info_.meta_table_info_.password_ false with
    | none => rw [hB] at h; cases h
    | some r2 =>
      obtain ⟨ret2, pw⟩ := r2
      obtain ⟨e2, _, sp, _, _⟩ := assign_some_inv _ _ _ _ hp hB
      subst e2
      rw [hB] at h
      simp only [ne_eq, not_true_eq_false, if_false] at h
      cases hC : info.db_.assign c.data_info_.meta_table_info_.db_ false with
      | none => rw [hC] at h; cases h
      | some r3 =>
        obtain ⟨ret3, db⟩ := r3
        obtain ⟨e3, _, sd, _, _⟩ := assign_some_inv _ _ _ _ hd hC
        rw [hC] at h
        simp only [Option.some.injEq, Prod.mk.injEq] at h
        obtain ⟨h1, h2⟩ := h
        subst h2
        exact ⟨h1 ▸ e3, sd, su, sp⟩

/-- When the buffers of `info` have 512 characters and the three stored strings have at most
511 characters, `get_meta_table_login_info` returns. -/
theorem login_info_returns (c : ObProxyJsonConfigInfo) (info : ObProxyLoginInfo)
    (hd : info.db_.config_string_str_.length = 512)
    (hu : info.username_.config_string_str_.length = 512)
    (hp : info.password_.config_string_str_.length = 512)
    (ld : c.data_info_.meta_table_info_.db_.config_string_.length ≤ 511)
    (lu : c.data_info_.meta_table_info_.username_.config_string_.length ≤ 511)
    (lp : c.data_info_.meta_table_info_.password_.config_string_.length ≤ 511) :
    ∃ info2, c.get_meta_table_login_info info = some (OB_SUCCESS, info2) := by
  obtain ⟨bu, _, hA⟩ := assign_fits info.username_ _ hu lu
  obtain ⟨bp, _, hB⟩ := assign_fits info.password_ _ hp lp
  obtain ⟨bd, _, hC⟩ := assign_fits info.db_ _ hd ld
  unfold ObProxyJsonConfigInfo.get_meta_table_login_info
  simp only [hA, hB, hC, ne_eq, not_true_eq_false, if_false]
  exact ⟨_, rfl⟩

/-! ## Claims on the meta-table login data -/

/-- C16, as stated, fails: the directory whose meta-table db is empty holds invalid login
data, yet `get_meta_table_login_info` returns `OB_SUCCESS`. -/
theorem login_info_error_counterexample :
    (directory "v1" "http://bin"
        (meta_table "" "user" "pw" "" (cluster "meta" "url" 0 []))).data_info_.meta_table_info_.db_.is_valid
        = false
      ∧ ∃ info2, (directory "v1" "http://bin"
          (meta_table "" "user" "pw" "" (cluster "meta" "url" 0 []))).get_meta_table_login_info
            stale_login = some (OB_SUCCESS, info2) :=
  ⟨by decide,
   login_info_returns _ stale_login (cfg_str_buf _ (by decide)) (cfg_str_buf _ (by decide))
     (cfg_str_buf _ (by decide)) (by decide) (by decide) (by decide)⟩

/-- C16, amended: `get_meta_table_login_info` never returns an error: whenever it returns,
the code is `OB_SUCCESS`, and it does return `OB_SUCCESS` for stored strings of at most 511
characters, also when the stored db, username or password is empty; the login data handed
out is then valid exactly when the three stored strings are non-empty. -/
theorem login_info_never_fails (c : ObProxyJsonConfigInfo) (info : ObProxyLoginInfo)
    (hd : info.db_.config_string_str_.length = 512)
    (hu : info.username_.config_string_str_.length = 512)
    (hp : info.password_.config_string_str_.length = 512) :
    (∀ ret info2, c.get_meta_table_login_info info = some (ret, info2) → ret = OB_SUCCESS)
      ∧ (c.data_info_.meta_table_info_.db_.config_string_.length ≤ 511 →
          c.data_info_.meta_table_info_.username_.config_string_.length ≤ 511 →
          c.data_info_.meta_table_info_.password_.config_string_.length ≤ 511 →
          ∃ info2, c.get_meta_table_login_info info = some (OB_SUCCESS, info2)
            ∧ info2.is_valid = (c.data_info_.meta_table_info_.db_.is_valid
                && c.data_info_.meta_table_info_.username_.is_valid
                && c.data_info_.meta_table_info_.password_.is_valid)) := by
  refine ⟨fun ret info2 h => (login_info_inv c info info2 ret hd hu hp h).1, ?_⟩
  intro ld lu lp
  obtain ⟨info2, h2⟩ := login_info_returns c info hd hu hp ld lu lp
  obtain ⟨_, e1, e2, e3⟩ := login_info_inv c info info2 _ hd hu hp h2
  refine ⟨info2, h2, ?_⟩
  simp only [ObProxyLoginInfo.is_valid, ObProxyConfigString.is_valid, e1, e2, e3]

/-- C16, witness of the amended claim: the directory with an empty meta-table db. -/
theorem login_info_never_fails_witness :
    ∃ info2, (directory "v1" "http://bin"
        (meta_table "" "user" "pw" "" (cluster "meta" "url" 0 []))).get_meta_table_login_info
          stale_login = some (OB_SUCCESS, info2)
      ∧ info2.is_valid = ((cfg_str "").is_valid && (cfg_str "user").is_valid
          && (cfg_str "pw").is_valid) :=
  (login_info_never_fails _ stale_login (cfg_str_buf _ (by decide)) (cfg_str_buf _ (by decide))
    (cfg_str_buf _ (by decide))).2 (by decide) (by decide) (by decide)

/-- C17: for every directory and every prior content of `info` (with buffers of 512
characters), after a call of `get_meta_table_login_info` that returns `OB_SUCCESS` the
strings `db_`, `username_` and `password_` of `info` are those of the meta-table record of
the directory, so that `info.is_valid()` holds exactly when the three stored strings are
non-empty; and the call does return when the stored strings have at most 511 characters. -/
theorem login_info_copies (c : ObProxyJsonConfigInfo) (info : ObProxyLoginInfo)
    (hd : info.db_.config_string_str_.length = 512)
    (hu : info.username_.config_string_str_.length = 512)
    (hp : info.password_.config_string_str_.length = 512) :
    (∀ ret info2, c.get_meta_table_login_info info = some (ret, info2) → ret = OB_SUCCESS →
        info2.db_.config_string_ = c.data_info_.meta_table_info_.db_.config_string_
          ∧ info2.username_.config_string_
              = c.data_info_.meta_table_info_.username_.config_string_
          ∧ info2.password_.config_string_
              = c.data_info_.meta_table_info_.password_.config_string_
          ∧ (info2.is_valid = true ↔
              (c.data_info_.meta_table_info_.db_.config_string_.ptr_ ≠ []
                ∧ c.data_info_.meta_table_info_.username_.config_string_.ptr_ ≠ []
                ∧ c.data_info_.meta_table_info_.password_.config_string_.ptr_ ≠ [])))
      ∧ (c.data_info_.meta_table_info_.db_.config_string_.length ≤ 511 →
          c.data_info_.meta_table_info_.username_.config_string_.length ≤ 511 →
          c.data_info_.meta_table_info_.password_.config_string_.length ≤ 511 →
          ∃ info2, c.get_meta_table_login_info info = some (OB_SUCCESS, info2)) := by
  refine ⟨?_, login_info_returns c info hd hu hp⟩
  intro ret info2 h _
  obtain ⟨_, e1, e2, e3⟩ := login_info_inv c info info2 ret hd hu hp h
  refine ⟨e1, e2, e3, ?_⟩
  simp only [ObProxyLoginInfo.is_valid, ObProxyConfigString.is_valid, e1, e2, e3,
    Bool.and_eq_true, Bool.not_eq_true', ObString.empty, List.isEmpty_eq_false, ne_eq,
    and_assoc]

/-- C17, witness: a directory with an empty password handed out into a login record with
stale content. -/
theorem login_info_copies_witness :
    ∃ info2, (directory "v1" "http://bin"
        (meta_table "db" "user" "" "" (cluster "meta" "url" 0 []))).get_meta_table_login_info
          stale_login = some (OB_SUCCESS, info2) :=
  (login_info_copies _ stale_login (cfg_str_buf _ (by decide)) (cfg_str_buf _ (by decide))
    (cfg_str_buf _ (by decide))).2 (by decide) (by decide) (by decide)

/-! ## Claims on `ObProxyClusterInfo::assign` and on the update of the replica list -/

/-- What `ObProxyClusterInfo::assign` between distinct objects does when the buffer of the
cluster name has 512 characters and the name of the source at most 511: the cluster name and
the master cluster id are those of the source, the rs url and the sub-cluster map are kept. -/
theorem cluster_info_assign_fits (a b : ObProxyClusterInfo)
    (hbuf : a.cluster_name_.config_string_str_.length = 512)
    (hlen : b.cluster_name_.config_string_.length ≤ 511) :
    ∃ buf, a.assign b false
      = some (OB_SUCCESS,
          { rs_url_ := a.rs_url_,
            cluster_name_ := { config_string_ := b.cluster_name_.config_string_,
                               size_limit_ := a.cluster_name_.size_limit_,
                               config_string_str_ := buf },
            master_cluster_id_ := b.master_cluster_id_,
            sub_ci_map_ := a.sub_ci_map_ }) := by
  obtain ⟨buf, _, hA⟩ := assign_fits a.cluster_name_ b.cluster_name_ hbuf hlen
  refine ⟨buf, ?_⟩
  unfold ObProxyClusterInfo.assign
  simp only [hA, if_true, ne_eq, not_true_eq_false, if_false]

/-- C18, the code at the failing input: a has master cluster id 1 and one sub-cluster with
the replica list A, B; b has master cluster id 2 and no sub-cluster. After `a.assign(b)` the
master cluster id of a is 2, that of b, and the sub-cluster map of a still holds its own
replica list, not the data of b; the cluster name is that of b and the rs url is kept. -/
theorem cluster_info_assign_at_input :
    ∃ c2, (cluster "a" "url_a" 1 [sub_ab]).assign (cluster "b" "url_b" 2 []) false
        = some (OB_SUCCESS, c2)
      ∧ c2.master_cluster_id_ = 2
      ∧ c2.master_cluster_id_ ≠ (cluster "a" "url_a" 1 [sub_ab]).master_cluster_id_
      ∧ c2.sub_ci_map_ = [sub_ab]
      ∧ c2.sub_ci_map_ ≠ (cluster "b" "url_b" 2 []).sub_ci_map_
      ∧ c2.cluster_name_.config_string_ = ob_str "b"
      ∧ c2.rs_url_ = cfg_url "url_a" := by
  obtain ⟨buf, h⟩ := cluster_info_assign_fits (cluster "a" "url_a" 1 [sub_ab])
    (cluster "b" "url_b" 2 []) (cfg_str_buf _ (by decide)) (by decide)
  exact ⟨_, h, rfl, (by decide : (2 : Int) ≠ 1), rfl, List.cons_ne_nil _ _, rfl, rfl⟩

theorem update_rslist_empty_retained (hash_fn : ServerListHash) (s : ObProxySubClusterInfo)
    (hhash : hash_fn [] ≠ s.rs_list_hash_)
    (hcount : s.create_failure_count_ + 1 ≤ RESET_RS_LIST_FAILURE_COUNT) :
    (s.update_rslist hash_fn [] 0).2
      = { s with create_failure_count_ := s.create_failure_count_ + 1 } := by
  unfold ObProxySubClusterInfo.update_rslist
  simp [hhash, not_lt.mpr hcount]

theorem update_rslist_empty_replaced (hash_fn : ServerListHash) (s : ObProxySubClusterInfo)
    (hhash : hash_fn [] ≠ s.rs_list_hash_)
    (hcount : s.create_failure_count_ + 1 > RESET_RS_LIST_FAILURE_COUNT) :
    (s.update_rslist hash_fn [] 0).2
      = { s with web_rs_list_ := [], rs_list_hash_ := hash_fn [],
                 create_failure_count_ := s.create_failure_count_ + 1 } := by
  unfold ObProxySubClusterInfo.update_rslist
  simp [hhash, hcount]

/-- C19: the failure-count policy of `update_rslist`: starting from a replica list A, B with
failure count 0 (the stored hash not being the hash of the empty list), three empty lists
leave the replica list A, B with failure count 3, and the fourth empty list makes the
replica list empty. -/
theorem update_rslist_failure_policy (hash_fn : ServerListHash) (s : ObProxySubClusterInfo)
    (a b : ObProxyReplicaLocation) (hlist : s.web_rs_list_ = [a, b])
    (hcount : s.create_failure_count_ = 0) (hhash : hash_fn [] ≠ s.rs_list_hash_) :
    (apply_empty hash_fn 3 s).web_rs_list_ = [a, b]
      ∧ (apply_empty hash_fn 3 s).create_failure_count_ = 3
      ∧ apply_empty hash_fn 3 s = { s with create_failure_count_ := 3 }
      ∧ (apply_empty hash_fn 4 s).web_rs_list_ = [] := by
  have h1 : (s.update_rslist hash_fn [] 0).2 = { s with create_failure_count_ := 1 } := by
    rw [update_rslist_empty_retained hash_fn s hhash (by rw [hcount]; decide), hcount]
    rfl
  have h2 : (ObProxySubClusterInfo.update_rslist hash_fn
      { s with create_failure_count_ := 1 } [] 0).2 = { s with create_failure_count_ := 2 } :=
    update_rslist_empty_retained hash_fn { s with create_failure_count_ := 1 } hhash
      (show (1 : Int) + 1 ≤ RESET_RS_LIST_FAILURE_COUNT by decide)
  have h3 : (ObProxySubClusterInfo.update_rslist hash_fn
      { s with create_failure_count_ := 2 } [] 0).2 = { s with create_failure_count_ := 3 } :=
    update_rslist_empty_retained hash_fn { s with create_failure_count_ := 2 } hhash
      (show (2 : Int) + 1 ≤ RESET_RS_LIST_FAILURE_COUNT by decide)
  have h4 : (ObProxySubClusterInfo.update_rslist hash_fn
      { s with create_failure_count_ := 3 } [] 0).2
      = { s with create_failure_count_ := 4, web_rs_list_ := [], rs_list_hash_ := hash_fn [] } :=
    update_rslist_empty_replaced hash_fn { s with create_failure_count_ := 3 } hhash
      (show (3 : Int) + 1 > RESET_RS_LIST_FAILURE_COUNT by decide)
  have e3 : apply_empty hash_fn 3 s = { s with create_failure_count_ := 3 } := by
    simp only [apply_empty, h1, h2, h3]
  refine ⟨?_, ?_, e3, ?_⟩
  · rw [e3]; exact hlist
  · rw [e3]
  · simp only [apply_empty, h1, h2, h3, h4]

/-- C19, witness: the sub-cluster record with the list A, B, its hash and failure count 0. -/
theorem update_rslist_failure_policy_witness :
    (apply_empty sum_hash 3 sub_ab).web_rs_list_ = [loc_a, loc_b]
      ∧ (apply_empty sum_hash 3 sub_ab).create_failure_count_ = 3
      ∧ apply_empty sum_hash 3 sub_ab = { sub_ab with create_failure_count_ := 3 }
      ∧ (apply_empty sum_hash 4 sub_ab).web_rs_list_ = [] :=
  update_rslist_failure_policy sum_hash sub_ab loc_a loc_b rfl rfl (by decide)

/-! ## Claims on the buffer of `ObProxyConfigString` -/

/-- For a non-empty value the index of the terminating NUL, `value.length()`, is among the
indices that `set_value(const ObString &)` writes. -/
theorem set_value_writes_nul (value : ObString) (h : value.ptr_ ≠ []) :
    value.length ∈ ObProxyConfigString.set_value_writes value := by
  unfold ObProxyConfigString.set_value_writes
  simp [ObString.empty, h]

theorem value_512_length : value_512.length = 512 := by
  simp only [value_512, ObString.length, List.length_replicate]

theorem value_600_length : value_600.length = 600 := by
  simp only [value_600, ObString.length, List.length_replicate]

theorem replicate_ne_nil (n : Nat) (c : Char) (h : 0 < n) : List.replicate n c ≠ [] := by
  intro hnil
  have := congrArg List.length hnil
  simp only [List.length_replicate, List.length_nil] at this
  omega

/-- C21, the code at the failing inputs: for a value of 512 characters the terminating NUL
is written at index 512, and for a value of 600 characters at index 600, outside the indices
0 to 511 of the buffer; with a buffer of 512 characters the call has no result. -/
theorem set_value_nul_outside_buffer :
    (512 ∈ ObProxyConfigString.set_value_writes value_512 ∧ ¬ 512 < (512 : Nat))
      ∧ (600 ∈ ObProxyConfigString.set_value_writes value_600 ∧ ¬ 600 < (512 : Nat))
      ∧ (cfg_str "").set_value value_512 = none
      ∧ (cfg_str "").set_value value_600 = none := by
  refine ⟨⟨?_, by decide⟩, ⟨?_, by decide⟩, ?_, ?_⟩
  · have h := set_value_writes_nul value_512 (replicate_ne_nil 512 _ (by decide))
    rw [value_512_length] at h
    exact h
  · have h := set_value_writes_nul value_600 (replicate_ne_nil 600 _ (by decide))
    rw [value_600_length] at h
    exact h
  · exact set_value_long _ _ (cfg_str_buf _ (by decide)) (by rw [value_512_length])
  · exact set_value_long _ _ (cfg_str_buf _ (by decide)) (by rw [value_600_length]; decide)

/-- What a returning `set_value(len, value)` leaves: the object as it was when the pointer
is null or `len` is at most 0, else a string of `min(len, 511)` characters, the first ones
of `value`. -/
theorem set_value_len_cases (s s2 : ObProxyConfigString) (len : Int)
    (value : Option (List Char)) (h : s.set_value_len len value = some s2) :
    ((value = none ∨ len ≤ 0) ∧ s2 = s)
      ∨ (0 < len ∧ ∃ v, value = some v
          ∧ s2.config_string_.ptr_ = v.take (min len 511).toNat
          ∧ (min len 511).toNat ≤ v.length) := by
  unfold ObProxyConfigString.set_value_len at h
  cases value with
  | none =>
    simp only [Option.some.injEq] at h
    exact Or.inl ⟨Or.inl rfl, h.symm⟩
  | some v =>
    simp only [OB_PROXY_MAX_CONFIG_STRING_LENGTH, Nat.cast_ofNat] at h
    have h511 : ((512 : Int) - 1) = 511 := by norm_num
    rw [h511] at h
    by_cases hpos : min len 511 > 0
    · rw [if_pos hpos] at h
      have hlen : 0 < len := by omega
      unfold memcpy at h
      by_cases hc : (min len 511).toNat ≤ s.config_string_str_.length
          ∧ (min len 511).toNat ≤ v.length
      · rw [if_pos hc] at h
        simp only at h
        unfold buf_store at h
        by_cases hs : (min len 511).toNat
            < (v.take (min len 511).toNat
                ++ s.config_string_str_.drop (min len 511).toNat).length
        · rw [if_pos hs] at h
          simp only [Option.some.injEq] at h
          subst h
          refine Or.inr ⟨hlen, v, rfl, ?_, hc.2⟩
          simp only
          rw [take_set_self]
          exact List.take_left' (by simp [hc.2])
        · rw [if_neg hs] at h
          cases h
      · rw [if_neg hc] at h
        cases h
    · rw [if_neg hpos] at h
      simp only [Option.some.injEq] at h
      exact Or.inl ⟨Or.inr (by omega), h.symm⟩

/-- What a returning `set_value(const ObString &)` leaves, the buffer having 512 characters:
the value had at most 511 characters and is the stored string. -/
theorem set_value_some_inv (s s2 : ObProxyConfigString) (value : ObString)
    (hbuf : s.config_string_str_.length = 512) (h : s.set_value value = some s2) :
    value.length ≤ 511 ∧ s2.config_string_ = value := by
  by_cases hlen : value.length ≤ 511
  · obtain ⟨b, _, hset⟩ := set_value_fits s value hbuf hlen
    rw [hset] at h
    simp only [Option.some.injEq] at h
    subst h
    exact ⟨hlen, rfl⟩
  · rw [set_value_long s value hbuf (by omega)] at h
    cases h

/-- C22, the code on all inputs, failing ones included: with the buffer of 512 characters,
`set_value(const ObString &v)` returns for a v of at most 511 characters and then stores
exactly v, which is the first min(|v|, 511) characters of v, so that the stored string is
empty exactly when v is; for a v of 512 characters or more the call writes outside the buffer
and has no result, so that nothing is stored. Whenever `reset`, either `set_value` or
`assign` returns, the stored string has at most `buffer_size()` = 511 characters (for the
paths that leave the string as it was, when it had before). -/
theorem config_string_set_value_cases (s : ObProxyConfigString)
    (hbuf : s.config_string_str_.length = 512) :
    ObProxyConfigString.buffer_size = 511
      ∧ s.reset.config_string_.length ≤ ObProxyConfigString.buffer_size
      ∧ (∀ v : ObString, v.length ≤ 511 →
          ∃ s2, s.set_value v = some s2
            ∧ s2.config_string_.ptr_
                = v.ptr_.take (min v.length ObProxyConfigString.buffer_size)
            ∧ s2.config_string_ = v
            ∧ s2.config_string_.length ≤ ObProxyConfigString.buffer_size
            ∧ (s2.is_valid = false ↔ v.ptr_ = []))
      ∧ (∀ v : ObString, 512 ≤ v.length → s.set_value v = none)
      ∧ (∀ (v : ObString) (s2 : ObProxyConfigString), s.set_value v = some s2 →
          s2.config_string_.length ≤ ObProxyConfigString.buffer_size)
      ∧ (∀ (len : Int) (value : Option (List Char)) (s2 : ObProxyConfigString),
          s.config_string_.length ≤ ObProxyConfigString.buffer_size →
          s.set_value_len len value = some s2 →
          s2.config_string_.length ≤ ObProxyConfigString.buffer_size)
      ∧ (∀ (other : ObProxyConfigString) (same : Bool) (ret : Int)
          (s2 : ObProxyConfigString),
          s.config_string_.length ≤ ObProxyConfigString.buffer_size →
          s.assign other same = some (ret, s2) →
          s2.config_string_.length ≤ ObProxyConfigString.buffer_size) := by
  have hb : ObProxyConfigString.buffer_size = 511 := rfl
  refine ⟨hb, by simp [ObProxyConfigString.reset, ObString.reset, ObString.length], ?_,
    fun v hv => set_value_long s v hbuf hv, ?_, ?_, ?_⟩
  · intro v hv
    obtain ⟨b, _, hset⟩ := set_value_fits s v hbuf hv
    refine ⟨_, hset, ?_, rfl, ?_, ?_⟩
    · simp only [hb]
      rw [Nat.min_eq_left hv]
      exact (List.take_of_length_le (le_refl _)).symm
    · simp only [hb]; exact hv
    · simp only [ObProxyConfigString.is_valid, ObString.empty, Bool.not_eq_false',
        List.isEmpty_eq_true]
  · intro v s2 h
    obtain ⟨hlen, heq⟩ := set_value_some_inv s s2 v hbuf h
    rw [heq, hb]; exact hlen
  · intro len value s2 hs h
    rcases set_value_len_cases s s2 len value h with ⟨_, h2⟩ | ⟨_, v, _, h2, _⟩
    · rw [h2]; exact hs
    · simp only [ObString.length, h2, List.length_take, hb]
      omega
  · intro other same ret s2 hs h
    unfold ObProxyConfigString.assign at h
    cases same with
    | true =>
      simp only [Bool.true_eq_false, if_false, Option.some.injEq, Prod.mk.injEq] at h
      rw [← h.2]; exact hs
    | false =>
      simp only [if_true] at h
      cases hsv : s.set_value other.config_string_ with
      | none => rw [hsv] at h; cases h
      | some s1 =>
        rw [hsv] at h
        simp only [Option.some.injEq, Prod.mk.injEq] at h
        obtain ⟨hlen, heq⟩ := set_value_some_inv s s1 _ hbuf hsv
        rw [← h.2, heq, hb]; exact hlen

/-- C22, the code at the failing input and at a short one: a value of 600 characters leaves
no result, nothing of it is stored; the value abc is stored as it is. -/
theorem config_string_set_value_cases_witness :
    (cfg_str "old").set_value value_600 = none
      ∧ ∃ s2, (cfg_str "old").set_value (ob_str "abc") = some s2
          ∧ s2.config_string_.ptr_
              = (ob_str "abc").ptr_.take
                  (min (ob_str "abc").length ObProxyConfigString.buffer_size)
          ∧ s2.config_string_ = ob_str "abc"
          ∧ s2.config_string_.length ≤ ObProxyConfigString.buffer_size
          ∧ (s2.is_valid = false ↔ (ob_str "abc").ptr_ = []) :=
  ⟨(config_string_set_value_cases (cfg_str "old") (cfg_str_buf _ (by decide))).2.2.2.1
      value_600 (by rw [value_600_length]; decide),
   (config_string_set_value_cases (cfg_str "old") (cfg_str_buf _ (by decide))).2.2.1
      (ob_str "abc") (by decide)⟩

/-- C27: with a buffer of 512 characters, `set_value(const ObString &)` with an empty value
clears the stored string, whereas `set_value(len, value)` with `len` at most 0 or a null
pointer leaves the object, stored string included, as it was; with `len` positive and a
pointer to at least min(len, 511) characters it stores the first min(len, 511) of them. -/
theorem set_value_overloads (s : ObProxyConfigString)
    (hbuf : s.config_string_str_.length = 512) :
    (∀ v : ObString, v.empty = true →
        ∃ s2, s.set_value v = some s2 ∧ s2.config_string_.ptr_ = []
          ∧ s2.config_string_.length = 0)
      ∧ (∀ (len : Int) (value : Option (List Char)), (len ≤ 0 ∨ value = none) →
          s.set_value_len len value = some s)
      ∧ (∀ (len : Int) (v : List Char), 0 < len → (min len 511).toNat ≤ v.length →
          ∃ s2, s.set_value_len len (some v) = some s2
            ∧ s2.config_string_.ptr_ = v.take (min len 511).toNat) := by
  refine ⟨?_, ?_, ?_⟩
  · intro v hv
    have hnil : v.ptr_ = [] := (ob_string_empty_iff v).mp hv
    have hlen : v.length ≤ 511 := by simp [ObString.length, hnil]
    obtain ⟨b, _, hset⟩ := set_value_fits s v hbuf hlen
    refine ⟨_, hset, hnil, ?_⟩
    simp only [ObString.length, hnil, List.length_nil]
  · intro len value h
    unfold ObProxyConfigString.set_value_len
    cases value with
    | none => rfl
    | some v =>
      rcases h with h | h
      · have hneg : ¬ min len ((OB_PROXY_MAX_CONFIG_STRING_LENGTH : Int) - 1) > 0 := by
          simp only [OB_PROXY_MAX_CONFIG_STRING_LENGTH, Nat.cast_ofNat]
          omega
        simp only [hneg, if_false]
      · cases h
  · intro len v hpos hv
    have h511 : ((OB_PROXY_MAX_CONFIG_STRING_LENGTH : Int) - 1) = 511 := by
      simp only [OB_PROXY_MAX_CONFIG_STRING_LENGTH, Nat.cast_ofNat]; norm_num
    have hcl : min len 511 > 0 := by omega
    have hle : (min len 511).toNat ≤ 511 := by omega
    have hcpy : memcpy s.config_string_str_ v (min len 511).toNat
        = some (v.take (min len 511).toNat
            ++ s.config_string_str_.drop (min len 511).toNat) := by
      unfold memcpy
      rw [if_pos ⟨by omega, hv⟩]
    have hst : buf_store (v.take (min len 511).toNat
          ++ s.config_string_str_.drop (min len 511).toNat) (min len 511).toNat (Char.ofNat 0)
        = some ((v.take (min len 511).toNat
            ++ s.config_string_str_.drop (min len 511).toNat).set (min len 511).toNat
              (Char.ofNat 0)) := by
      unfold buf_store
      rw [if_pos (by simp [hbuf, hv]; omega)]
    have hcall : s.set_value_len len (some v)
        = some { s with
            config_string_str_ :=
              (v.take (min len 511).toNat
                ++ s.config_string_str_.drop (min len 511).toNat).set (min len 511).toNat
                  (Char.ofNat 0),
            config_string_ :=
              { ptr_ := ((v.take (min len 511).toNat
                  ++ s.config_string_str_.drop (min len 511).toNat).set (min len 511).toNat
                    (Char.ofNat 0)).take (min len 511).toNat } } := by
      unfold ObProxyConfigString.set_value_len
      simp only [h511, hcl, if_true, hcpy, hst]
    refine ⟨_, hcall, ?_⟩
    simp only
    rw [take_set_self]
    exact List.take_left' (by simp [hv])

/-- C27, witness: on a config string that holds a literal, an empty value clears it, a null
pointer leaves it, and a pointer to five characters with `len` 3 stores the first three. -/
theorem set_value_overloads_witness :
    (∃ s2, (cfg_str "old").set_value (ob_str "") = some s2 ∧ s2.config_string_.ptr_ = []
        ∧ s2.config_string_.length = 0)
      ∧ (cfg_str "old").set_value_len 5 none = some (cfg_str "old")
      ∧ (cfg_str "old").set_value_len 0 (some "hello".toList) = some (cfg_str "old")
      ∧ (∃ s2, (cfg_str "old").set_value_len 3 (some "hello".toList) = some s2
          ∧ s2.config_string_.ptr_ = "hello".toList.take (min (3 : Int) 511).toNat) :=
  ⟨(set_value_overloads (cfg_str "old") (cfg_str_buf _ (by decide))).1 (ob_str "") rfl,
   (set_value_overloads (cfg_str "old") (cfg_str_buf _ (by decide))).2.1 5 none (Or.inr rfl),
   (set_value_overloads (cfg_str "old") (cfg_str_buf _ (by decide))).2.1 0 _
     (Or.inl (le_refl _)),
   (set_value_overloads (cfg_str "old") (cfg_str_buf _ (by decide))).2.2 3 "hello".toList
     (by decide) (by decide)⟩

/-! ## Claims on the meta-table record: copy, equality, change detection -/

/-- The comparison `ObProxyMetaTableInfo::operator==` in terms of the strings. -/
theorem meta_eq_strings (a b : ObProxyMetaTableInfo) :
    a.eq b = true ↔
      (a.db_.config_string_ = b.db_.config_string_
        ∧ a.username_.config_string_ = b.username_.config_string_
        ∧ a.password_.config_string_ = b.password_.config_string_
        ∧ (a.real_cluster_name_.config_string_.ptr_ = []
            ∨ b.real_cluster_name_.config_string_.ptr_ = []
            ∨ a.real_cluster_name_.config_string_ = b.real_cluster_name_.config_string_)
        ∧ a.cluster_info_.cluster_name_.config_string_
            = b.cluster_info_.cluster_name_.config_string_
        ∧ a.cluster_info_.rs_url_.url_ = b.cluster_info_.rs_url_.url_) := by
  simp only [ObProxyMetaTableInfo.eq, Bool.and_eq_true, Bool.or_eq_true, ObProxyConfigString.eq,
    ObProxyConfigString.empty, ob_string_eq_iff, ob_string_empty_iff, cluster_eq_strings]
  tauto

/-- What a returning `ObProxyClusterInfo::assign` between distinct objects leaves, the
buffer of the cluster name having 512 characters. -/
theorem cluster_info_assign_inv (a b c2 : ObProxyClusterInfo) (ret : Int)
    (hbuf : a.cluster_name_.config_string_str_.length = 512)
    (h : a.assign b false = some (ret, c2)) :
    ret = OB_SUCCESS
      ∧ c2.cluster_name_.config_string_ = b.cluster_name_.config_string_
      ∧ c2.rs_url_ = a.rs_url_
      ∧ c2.master_cluster_id_ = b.master_cluster_id_
      ∧ c2.sub_ci_map_ = a.sub_ci_map_ := by
  unfold ObProxyClusterInfo.assign at h
  simp only [if_true] at h
  cases hA : a.cluster_name_.assign b.cluster_name_ false with
  | none => rw [hA] at h; cases h
  | some r =>
    obtain ⟨r1, nm⟩ := r
    obtain ⟨e1, _, e2, _, _⟩ := assign_some_inv _ _ _ _ hbuf hA
    subst e1
    rw [hA] at h
    simp only [ne_eq, not_true_eq_false, if_false, Option.some.injEq, Prod.mk.injEq] at h
    obtain ⟨h1, h2⟩ := h
    subst h2
    exact ⟨h1.symm, e2, rfl, rfl, rfl⟩

/-- What a returning `ObProxyMetaTableInfo::assign` between distinct objects leaves, the
five buffers of the target having 512 characters: the return code is `OB_SUCCESS`, the db,
username, password, real cluster name and cluster name are those of the source, and the rs
url of the cluster record is kept. -/
theorem meta_assign_inv (t m t2 : ObProxyMetaTableInfo) (ret : Int)
    (hd : t.db_.config_string_str_.length = 512)
    (hu : t.username_.config_string_str_.length = 512)
    (hp : t.password_.config_string_str_.length = 512)
    (hr : t.real_cluster_name_.config_string_str_.length = 512)
    (hc : t.cluster_info_.cluster_name_.config_string_str_.length = 512)
    (h : t.assign m false = some (ret, t2)) :
    ret = OB_SUCCESS
      ∧ t2.db_.config_string_ = m.db_.config_string_
      ∧ t2.username_.config_string_ = m.username_.config_string_
      ∧ t2.password_.config_string_ = m.password_.config_string_
      ∧ t2.real_cluster_name_.config_string_ = m.real_cluster_name_.config_string_
      ∧ t2.cluster_info_.cluster_name_.config_string_
          = m.cluster_info_.cluster_name_.config_string_
      ∧ t2.cluster_info_.rs_url_ = t.cluster_info_.rs_url_ := by
  unfold ObProxyMetaTableInfo.assign at h
  simp only [if_true] at h
  cases hA : t.db_.assign m.db_ false with
  | none => rw [hA] at h; cases h
  | some r1 =>
    obtain ⟨ret1, db⟩ := r1
    obtain ⟨e1, _, sd, _, _⟩ := assign_some_inv _ _ _ _ hd hA
    subst e1
    rw [hA] at h
    simp only [ne_eq, not_true_eq_false, if_false] at h
    cases hB : t.username_.assign m.username_ false with
    | none => rw [hB] at h; cases h
    | some r2 =>
      obtain ⟨ret2, user⟩ := r2
      obtain ⟨e2, _, su, _, _⟩ := assign_some_inv _ _ _ _ hu hB
      subst e2
      rw [hB] at h
      simp only [ne_eq, not_true_eq_false, if_false] at h
      cases hC : t.password_.assign m.password_ false with
      | none => rw [hC] at h; cases h
      | some r3 =>
        obtain ⟨ret3, pw⟩ := r3
        obtain ⟨e3, _, sp, _, _⟩ := assign_some_inv _ _ _ _ hp hC
        subst e3
        rw [hC] at h
        simp only [ne_eq, not_true_eq_false, if_false] at h
        cases hD : t.real_cluster_name_.assign m.real_cluster_name_ false with
        | none => rw [hD] at h; cases h
        | some r4 =>
          obtain ⟨ret4, real⟩ := r4
          obtain ⟨e4, _, sr, _, _⟩ := assign_some_inv _ _ _ _ hr hD
          subst e4
          rw [hD] at h
          simp only [ne_eq, not_true_eq_false, if_false] at h
          cases hE : t.cluster_info_.assign m.cluster_info_ false with
          | none => rw [hE] at h; cases h
          | some r5 =>
            obtain ⟨ret5, ci⟩ := r5
            obtain ⟨e5, sc, surl, _, _⟩ := cluster_info_assign_inv _ _ _ _ hc hE
            rw [hE] at h
            simp only [Option.some.injEq, Prod.mk.injEq] at h
            obtain ⟨h1, h2⟩ := h
            subst h2
            exact ⟨h1 ▸ e5, sd, su, sp, sr, sc, surl⟩

/-- When the five buffers of the target have 512 characters and the five strings of the
source at most 511, `ObProxyMetaTableInfo::assign` between distinct objects returns
`OB_SUCCESS`. -/
theorem meta_assign_returns (t m : ObProxyMetaTableInfo)
    (hd : t.db_.config_string_str_.length = 512)
    (hu : t.username_.config_string_str_.length = 512)
    (hp : t.password_.config_string_str_.length = 512)
    (hr : t.real_cluster_name_.config_string_str_.length = 512)
    (hc : t.cluster_info_.cluster_name_.config_string_str_.length = 512)
    (ld : m.db_.config_string_.length ≤ 511)
    (lu : m.username_.config_string_.length ≤ 511)
    (lp : m.password_.config_string_.length ≤ 511)
    (lr : m.real_cluster_name_.config_string_.length ≤ 511)
    (lc : m.cluster_info_.cluster_name_.config_string_.length ≤ 511) :
    ∃ t2, t.assign m false = some (OB_SUCCESS, t2) := by
  obtain ⟨bd, _, hA⟩ := assign_fits t.db_ _ hd ld
  obtain ⟨bu, _, hB⟩ := assign_fits t.username_ _ hu lu
  obtain ⟨bp, _, hC⟩ := assign_fits t.password_ _ hp lp
  obtain ⟨br, _, hD⟩ := assign_fits t.real_cluster_name_ _ hr lr
  obtain ⟨bc, hE⟩ := cluster_info_assign_fits t.cluster_info_ m.cluster_info_ hc lc
  unfold ObProxyMetaTableInfo.assign
  simp only [hA, hB, hC, hD, hE, if_true, ne_eq, not_true_eq_false, if_false]
  exact ⟨_, rfl⟩

/-- The copy that `ObProxyMetaTableInfo::assign` leaves compares equal to its source
exactly when the rs url of the target, which the copy keeps, is the one of the source. -/
theorem meta_assign_eq (t m t2 : ObProxyMetaTableInfo) (ret : Int)
    (hd : t.db_.config_string_str_.length = 512)
    (hu : t.username_.config_string_str_.length = 512)
    (hp : t.password_.config_string_str_.length = 512)
    (hr : t.real_cluster_name_.config_string_str_.length = 512)
    (hc : t.cluster_info_.cluster_name_.config_string_str_.length = 512)
    (h : t.assign m false = some (ret, t2)) :
    t2.eq m = true ↔ t.cluster_info_.rs_url_.url_ = m.cluster_info_.rs_url_.url_ := by
  obtain ⟨_, e1, e2, e3, e4, e5, e6⟩ := meta_assign_inv t m t2 ret hd hu hp hr hc h
  rw [meta_eq_strings, e1, e2, e3, e4, e5, e6]
  constructor
  · intro hall; exact hall.2.2.2.2.2
  · intro hurl; exact ⟨rfl, rfl, rfl, Or.inr (Or.inr rfl), rfl, hurl⟩

/-- C23, as stated, fails: the target t has the rs url url_t, the source m the rs url
url_m; `t.assign(m)` returns `OB_SUCCESS` and the copy does not compare equal to m. -/
theorem meta_table_assign_counterexample :
    ∃ t2, (meta_table "" "" "" "" (cluster "" "url_t" 0 [])).assign
        (meta_table "db" "user" "pw" "real" (cluster "meta" "url_m" 1 [])) false
          = some (OB_SUCCESS, t2)
      ∧ t2.eq (meta_table "db" "user" "pw" "real" (cluster "meta" "url_m" 1 [])) = false := by
  obtain ⟨t2, h⟩ := meta_assign_returns (meta_table "" "" "" "" (cluster "" "url_t" 0 []))
    (meta_table "db" "user" "pw" "real" (cluster "meta" "url_m" 1 []))
    (cfg_str_buf _ (by decide)) (cfg_str_buf _ (by decide)) (cfg_str_buf _ (by decide))
    (cfg_str_buf _ (by decide)) (cfg_str_buf _ (by decide))
    (by decide) (by decide) (by decide) (by decide) (by decide)
  refine ⟨t2, h, ?_⟩
  have hiff := meta_assign_eq _ _ t2 _ (cfg_str_buf _ (by decide)) (cfg_str_buf _ (by decide))
    (cfg_str_buf _ (by decide)) (cfg_str_buf _ (by decide)) (cfg_str_buf _ (by decide)) h
  cases hv : t2.eq (meta_table "db" "user" "pw" "real" (cluster "meta" "url_m" 1 [])) with
  | false => rfl
  | true =>
    have hurl := hiff.mp hv
    exact absurd hurl (by decide)

/-- C23, amended: for distinct t and m (the buffers of t having 512 characters), whenever
`t.assign(m)` returns, it returns `OB_SUCCESS`, the db, username, password, real cluster
name and cluster name of t are those of m, the rs url of the cluster record of t is kept as
it was (`assign` does not copy it), and t == m holds exactly when that rs url is the one of
m; the call returns when the strings of m have at most 511 characters. -/
theorem meta_table_assign_eq (t m : ObProxyMetaTableInfo)
    (hd : t.db_.config_string_str_.length = 512)
    (hu : t.username_.config_string_str_.length = 512)
    (hp : t.password_.config_string_str_.length = 512)
    (hr : t.real_cluster_name_.config_string_str_.length = 512)
    (hc : t.cluster_info_.cluster_name_.config_string_str_.length = 512) :
    (∀ ret t2, t.assign m false = some (ret, t2) →
        ret = OB_SUCCESS
          ∧ t2.db_.config_string_ = m.db_.config_string_
          ∧ t2.username_.config_string_ = m.username_.config_string_
          ∧ t2.password_.config_string_ = m.password_.config_string_
          ∧ t2.real_cluster_name_.config_string_ = m.real_cluster_name_.config_string_
          ∧ t2.cluster_info_.cluster_name_.config_string_
              = m.cluster_info_.cluster_name_.config_string_
          ∧ t2.cluster_info_.rs_url_ = t.cluster_info_.rs_url_
          ∧ (t2.eq m = true ↔ t.cluster_info_.rs_url_.url_ = m.cluster_info_.rs_url_.url_))
      ∧ (m.db_.config_string_.length ≤ 511 → m.username_.config_string_.length ≤ 511 →
          m.password_.config_string_.length ≤ 511 →
          m.real_cluster_name_.config_string_.length ≤ 511 →
          m.cluster_info_.cluster_name_.config_string_.length ≤ 511 →
          ∃ t2, t.assign m false = some (OB_SUCCESS, t2)) := by
  refine ⟨?_, meta_assign_returns t m hd hu hp hr hc⟩
  intro ret t2 h
  obtain ⟨e0, e1, e2, e3, e4, e5, e6⟩ := meta_assign_inv t m t2 ret hd hu hp hr hc h
  exact ⟨e0, e1, e2, e3, e4, e5, e6, meta_assign_eq t m t2 ret hd hu hp hr hc h⟩

/-- C23, witness of the amended claim: a target that already has the rs url of the source
becomes a copy with the strings of the source that compares equal to it. -/
theorem meta_table_assign_eq_witness :
    ∃ t2, (meta_table "" "" "" "" (cluster "" "url_m" 0 [])).assign
        (meta_table "db" "user" "pw" "real" (cluster "meta" "url_m" 1 [])) false
          = some (OB_SUCCESS, t2)
      ∧ t2.db_.config_string_ = ob_str "db"
      ∧ t2.username_.config_string_ = ob_str "user"
      ∧ t2.password_.config_string_ = ob_str "pw"
      ∧ t2.real_cluster_name_.config_string_ = ob_str "real"
      ∧ t2.cluster_info_.cluster_name_.config_string_ = ob_str "meta"
      ∧ t2.cluster_info_.rs_url_ = cfg_url "url_m"
      ∧ t2.eq (meta_table "db" "user" "pw" "real" (cluster "meta" "url_m" 1 [])) = true := by
  have hall := meta_table_assign_eq (meta_table "" "" "" "" (cluster "" "url_m" 0 []))
    (meta_table "db" "user" "pw" "real" (cluster "meta" "url_m" 1 []))
    (cfg_str_buf _ (by decide)) (cfg_str_buf _ (by decide)) (cfg_str_buf _ (by decide))
    (cfg_str_buf _ (by decide)) (cfg_str_buf _ (by decide))
  obtain ⟨t2, h⟩ := hall.2 (by decide) (by decide) (by decide) (by decide) (by decide)
  obtain ⟨_, e1, e2, e3, e4, e5, e6, e7⟩ := hall.1 _ t2 h
  exact ⟨t2, h, e1, e2, e3, e4, e5, e6, e7.mpr rfl⟩

/-- C24, as stated, fails: with real cluster names x, empty and y in otherwise equal records
a, b and c, a == b and b == c hold and a == c does not. -/
theorem meta_table_eq_transitive_counterexample :
    (meta_table "db" "user" "pw" "x" (cluster "meta" "url" 0 [])).eq
        (meta_table "db" "user" "pw" "" (cluster "meta" "url" 0 [])) = true
      ∧ (meta_table "db" "user" "pw" "" (cluster "meta" "url" 0 [])).eq
        (meta_table "db" "user" "pw" "y" (cluster "meta" "url" 0 [])) = true
      ∧ (meta_table "db" "user" "pw" "x" (cluster "meta" "url" 0 [])).eq
        (meta_table "db" "user" "pw" "y" (cluster "meta" "url" 0 [])) = false := by
  decide

/-- C24, amended: `ObProxyMetaTableInfo::operator==` is reflexive and symmetric, and from
a == b and b == c follows a == c whenever the real cluster name of b is not empty. -/
theorem meta_table_eq_relation (a b c : ObProxyMetaTableInfo) :
    a.eq a = true
      ∧ a.eq b = b.eq a
      ∧ (b.real_cluster_name_.config_string_.ptr_ ≠ [] → a.eq b = true → b.eq c = true →
          a.eq c = true) := by
  refine ⟨?_, ?_, ?_⟩
  · rw [meta_eq_strings]
    exact ⟨rfl, rfl, rfl, Or.inr (Or.inr rfl), rfl, rfl⟩
  · have hsymm : ∀ x y : ObProxyMetaTableInfo, x.eq y = true → y.eq x = true := by
      intro x y h
      rw [meta_eq_strings] at h ⊢
      obtain ⟨h1, h2, h3, h4, h5, h6⟩ := h
      refine ⟨h1.symm, h2.symm, h3.symm, ?_, h5.symm, h6.symm⟩
      rcases h4 with h4 | h4 | h4
      · exact Or.inr (Or.inl h4)
      · exact Or.inl h4
      · exact Or.inr (Or.inr h4.symm)
    cases hab : a.eq b with
    | true => exact (hsymm a b hab).symm
    | false =>
      cases hba : b.eq a with
      | true => rw [hsymm b a hba] at hab; cases hab
      | false => rfl
  · intro hb hab hbc
    rw [meta_eq_strings] at hab hbc ⊢
    obtain ⟨h1, h2, h3, h4, h5, h6⟩ := hab
    obtain ⟨k1, k2, k3, k4, k5, k6⟩ := hbc
    refine ⟨h1.trans k1, h2.trans k2, h3.trans k3, ?_, h5.trans k5, h6.trans k6⟩
    rcases h4 with h4 | h4 | h4
    · exact Or.inl h4
    · exact absurd h4 hb
    · rcases k4 with k4 | k4 | k4
      · exact absurd k4 hb
      · exact Or.inr (Or.inl k4)
      · exact Or.inr (Or.inr (h4.trans k4))

/-- C24, witness of the amended claim: three records whose middle one has the real cluster
name x. -/
theorem meta_table_eq_relation_witness :
    (meta_table "db" "user" "pw" "" (cluster "meta" "url" 0 [])).eq
        (meta_table "db" "user" "pw" "" (cluster "meta" "url" 0 [])) = true
      ∧ (meta_table "db" "user" "pw" "" (cluster "meta" "url" 0 [])).eq
          (meta_table "db" "user" "pw" "x" (cluster "meta" "url" 0 []))
        = (meta_table "db" "user" "pw" "x" (cluster "meta" "url" 0 [])).eq
          (meta_table "db" "user" "pw" "" (cluster "meta" "url" 0 []))
      ∧ (meta_table "db" "user" "pw" "" (cluster "meta" "url" 0 [])).eq
        (meta_table "db" "user" "pw" "x" (cluster "meta" "url" 1 [sub_ab])) = true :=
  ⟨(meta_table_eq_relation (meta_table "db" "user" "pw" "" (cluster "meta" "url" 0 []))
      (meta_table "db" "user" "pw" "x" (cluster "meta" "url" 0 []))
      (meta_table "db" "user" "pw" "x" (cluster "meta" "url" 1 [sub_ab]))).1,
   (meta_table_eq_relation (meta_table "db" "user" "pw" "" (cluster "meta" "url" 0 []))
      (meta_table "db" "user" "pw" "x" (cluster "meta" "url" 0 []))
      (meta_table "db" "user" "pw" "x" (cluster "meta" "url" 1 [sub_ab]))).2.1,
   (meta_table_eq_relation (meta_table "db" "user" "pw" "" (cluster "meta" "url" 0 []))
      (meta_table "db" "user" "pw" "x" (cluster "meta" "url" 0 []))
      (meta_table "db" "user" "pw" "x" (cluster "meta" "url" 1 [sub_ab]))).2.2
      (by decide) (by decide) (by decide)⟩

/-- C25, as stated, fails: the stored IDC record and the other one have the same hash and the
same idc name and different region names; `is_idc_list_changed` returns false although the
two records are not equal under `ObProxyIDCInfo::operator==`. -/
theorem idc_list_unchanged_counterexample :
    ({ sub_ab with idc_list_ := [idc 7 "hz" "east"] }).is_idc_list_changed
        [idc 7 "hz" "north"] = false
      ∧ (idc 7 "hz" "east").eq (idc 7 "hz" "north") = false := by
  decide

/-- C25, amended: if `is_idc_list_changed(other)` returns false, the stored list and `other`
have the same length and the same `idc_hash_` at every position. -/
theorem idc_list_unchanged_hashes (s : ObProxySubClusterInfo) (other : ObProxyIDCList)
    (h : s.is_idc_list_changed other = false) :
    s.idc_list_.length = other.length
      ∧ ∀ (i : Nat) (a b : ObProxyIDCInfo), s.idc_list_[i]? = some a → other[i]? = some b →
          a.idc_hash_ = b.idc_hash_ := by
  unfold ObProxySubClusterInfo.is_idc_list_changed at h
  by_cases hlen : s.idc_list_.length = other.length
  · rw [if_neg (not_not.mpr hlen)] at h
    refine ⟨hlen, ?_⟩
    intro i a b ha hb
    by_contra hne
    have htrue : idc_list_loop s.idc_list_ other false = true :=
      (idc_list_loop_iff _ _ hlen).mpr ⟨i, a, b, ha, hb, hne⟩
    rw [htrue] at h
    cases h
  · rw [if_pos hlen] at h
    cases h

/-- C25, witness of the amended claim: two lists of two records with the same hashes. -/
theorem idc_list_unchanged_hashes_witness :
    ([idc 7 "hz" "east", idc 9 "sh" "north"] : ObProxyIDCList).length
        = ([idc 7 "hz" "west", idc 9 "bj" "north"] : ObProxyIDCList).length
      ∧ ∀ (i : Nat) (a b : ObProxyIDCInfo),
          ([idc 7 "hz" "east", idc 9 "sh" "north"] : ObProxyIDCList)[i]? = some a →
          ([idc 7 "hz" "west", idc 9 "bj" "north"] : ObProxyIDCList)[i]? = some b →
          a.idc_hash_ = b.idc_hash_ :=
  idc_list_unchanged_hashes
    { sub_ab with idc_list_ := [idc 7 "hz" "east", idc 9 "sh" "north"] }
    [idc 7 "hz" "west", idc 9 "bj" "north"] (by decide)

/-- C26: `a.is_meta_db_changed(b)` is true exactly when the meta-table record of a is valid
(db, username, password and the name of the meta cluster non-empty) and is not == the one of
b; it is false whenever the record of a is not valid, whatever b holds; and the relation is
not symmetric: for a directory without meta-table data and one with, it is false one way and
true the other way. -/
theorem is_meta_db_changed_iff (a b : ObProxyJsonConfigInfo) :
    (a.is_meta_db_changed b = true ↔
        ((a.data_info_.meta_table_info_.db_.config_string_.ptr_ ≠ []
            ∧ a.data_info_.meta_table_info_.username_.config_string_.ptr_ ≠ []
            ∧ a.data_info_.meta_table_info_.password_.config_string_.ptr_ ≠ []
            ∧ a.data_info_.meta_table_info_.cluster_info_.cluster_name_.config_string_.ptr_
                ≠ [])
          ∧ a.data_info_.meta_table_info_.eq b.data_info_.meta_table_info_ = false))
      ∧ (a.data_info_.meta_table_info_.is_valid = false → a.is_meta_db_changed b = false)
      ∧ ((directory "v1" "http://bin" (meta_table "" "" "" "" (cluster "" "" 0 []))).is_meta_db_changed
            (directory "v1" "http://bin" (meta_table "db" "user" "pw" "" (cluster "meta" "url" 0 [])))
          = false
        ∧ (directory "v1" "http://bin"
            (meta_table "db" "user" "pw" "" (cluster "meta" "url" 0 []))).is_meta_db_changed
            (directory "v1" "http://bin" (meta_table "" "" "" "" (cluster "" "" 0 [])))
          = true) := by
  refine ⟨?_, ?_, by decide⟩
  · simp only [ObProxyJsonConfigInfo.is_meta_db_changed, ObProxyMetaTableInfo.ne,
      ObProxyMetaTableInfo.is_valid, ObProxyClusterInfo.is_valid, ObProxyConfigString.is_valid,
      Bool.and_eq_true, Bool.not_eq_true', ObString.empty, List.isEmpty_eq_false, ne_eq,
      and_assoc]
  · intro h
    simp only [ObProxyJsonConfigInfo.is_meta_db_changed, h, Bool.false_and]

/-- C26, witness: a valid record against an equal one reports no change, against one with
another password it reports a change. -/
theorem is_meta_db_changed_witness :
    (directory "v1" "http://bin"
        (meta_table "db" "user" "pw" "" (cluster "meta" "url" 0 []))).is_meta_db_changed
        (directory "v2" "http://bin" (meta_table "db" "user" "pw" "" (cluster "meta" "url" 0 [])))
        = false
      ∧ ((directory "v1" "http://bin"
          (meta_table "db" "user" "pw" "" (cluster "meta" "url" 0 []))).is_meta_db_changed
          (directory "v1" "http://bin"
            (meta_table "db" "user" "pw2" "" (cluster "meta" "url" 0 []))) = true) :=
  ⟨by decide,
   (is_meta_db_changed_iff
      (directory "v1" "http://bin" (meta_table "db" "user" "pw" "" (cluster "meta" "url" 0 [])))
      (directory "v1" "http://bin"
        (meta_table "db" "user" "pw2" "" (cluster "meta" "url" 0 [])))).1.mpr
      ⟨⟨by decide, by decide, by decide, by decide⟩, by decide⟩⟩

end ObProxy
